import Mathlib

/-!
Verification of the tiny-c-compiler code generator, symbol tables, and PE
writer.  Each C function of the repository is shallowly embedded as an
executable Lean definition over an explicit compiler-state record; machine
integers are modelled as `Nat`/`Int` with explicit `% 2^w` where the C code
truncates.  The theorems at the end of the file settle the claims about the
program.
-/

namespace TinyCC

/-! ## Configuration constants (tcc.h) -/

def VSTACK_SIZE : Nat := 256
def SYM_HASH_SIZE : Nat := 8192

/-! ## Basic types (tcc.h) -/

def VT_INT : Nat := 0
def VT_BYTE : Nat := 1
def VT_SHORT : Nat := 2
def VT_VOID : Nat := 3
def VT_PTR : Nat := 4
def VT_ENUM : Nat := 5
def VT_FUNC : Nat := 6
def VT_STRUCT : Nat := 7
def VT_FLOAT : Nat := 8
def VT_DOUBLE : Nat := 9
def VT_LDOUBLE : Nat := 10
def VT_BOOL : Nat := 11
def VT_LLONG : Nat := 12
def VT_LONG : Nat := 13
def VT_BTYPE : Nat := 0x000f

def VT_UNSIGNED : Nat := 0x0010
def VT_ARRAY : Nat := 0x0020
def VT_BITFIELD : Nat := 0x0040
def VT_CONSTANT : Nat := 0x0800
def VT_VOLATILE : Nat := 0x1000
def VT_DEFSIGN : Nat := 0x2000

def VT_EXTERN : Nat := 0x0080
def VT_STATIC : Nat := 0x0100
def VT_TYPEDEF : Nat := 0x0200
def VT_INLINE : Nat := 0x0400

/-! ## Value stack constants (SValue.r) -/

def VT_CONST : Nat := 0x00f0
def VT_LLOCAL : Nat := 0x00f1
def VT_LOCAL : Nat := 0x00f2
def VT_CMP : Nat := 0x00f3
def VT_JMP : Nat := 0x00f4
def VT_JMPI : Nat := 0x00f5

def VT_LVAL : Nat := 0x0100
def VT_SYM : Nat := 0x0200
def VT_MUSTCAST : Nat := 0x0400

/-! ## x86-64 registers and register classes (tcc.h) -/

def REG_RAX : Nat := 0
def REG_RCX : Nat := 1
def REG_RDX : Nat := 2
def REG_RBX : Nat := 3
def REG_RSP : Nat := 4
def REG_RBP : Nat := 5
def REG_RSI : Nat := 6
def REG_RDI : Nat := 7
def REG_R8 : Nat := 8
def REG_R9 : Nat := 9

def RC_INT : Nat := 0x0001
def RC_FLOAT : Nat := 0x0002
def RC_RAX : Nat := 0x0004
def RC_RCX : Nat := 0x0008
def RC_RDX : Nat := 0x0010

def NB_REGS : Nat := 6

/-! ## Token codes (tcc.h enum, `TOK_NUM = 256` and the rest in order) -/

def TOK_EOF : Nat := 0
def TOK_NUM : Nat := 256
def TOK_STR : Nat := 257
def TOK_IDENT : Nat := 258
def TOK_INT : Nat := 259
def TOK_CHAR : Nat := 260
def TOK_VOID : Nat := 261
def TOK_IF : Nat := 262
def TOK_ELSE : Nat := 263
def TOK_WHILE : Nat := 264
def TOK_FOR : Nat := 265
def TOK_DO : Nat := 266
def TOK_RETURN : Nat := 267
def TOK_BREAK : Nat := 268
def TOK_CONTINUE : Nat := 269
def TOK_SWITCH : Nat := 270
def TOK_CASE : Nat := 271
def TOK_DEFAULT : Nat := 272
def TOK_SIZEOF : Nat := 273
def TOK_STRUCT : Nat := 274
def TOK_UNION : Nat := 275
def TOK_ENUM : Nat := 276
def TOK_TYPEDEF : Nat := 277
def TOK_STATIC : Nat := 278
def TOK_EXTERN : Nat := 279
def TOK_CONST : Nat := 280
def TOK_UNSIGNED : Nat := 281
def TOK_SIGNED : Nat := 282
def TOK_SHORT : Nat := 283
def TOK_LONG : Nat := 284
def TOK_FLOAT : Nat := 285
def TOK_DOUBLE : Nat := 286
def TOK_EQ : Nat := 287
def TOK_NE : Nat := 288
def TOK_LE : Nat := 289
def TOK_GE : Nat := 290
def TOK_SHL : Nat := 291
def TOK_SHR : Nat := 292
def TOK_INC : Nat := 293
def TOK_DEC : Nat := 294
def TOK_ARROW : Nat := 295
def TOK_AND : Nat := 296
def TOK_OR : Nat := 297
def TOK_ADD_ASSIGN : Nat := 298
def TOK_SUB_ASSIGN : Nat := 299
def TOK_MUL_ASSIGN : Nat := 300
def TOK_DIV_ASSIGN : Nat := 301
def TOK_MOD_ASSIGN : Nat := 302
def TOK_AND_ASSIGN : Nat := 303
def TOK_OR_ASSIGN : Nat := 304
def TOK_XOR_ASSIGN : Nat := 305
def TOK_SHL_ASSIGN : Nat := 306
def TOK_SHR_ASSIGN : Nat := 307
def TOK_ELLIPSIS : Nat := 308

/-! ## Machine-integer helpers.

The C code stores 32-bit quantities into byte buffers and reads them back
through `uint32_t` / `int` casts.  We model a `uint32_t` as a `Nat` less than
`2^32` and the `(int)` reinterpretation of such a value by `int32ofNat`. -/

/-- Reinterpret a `uint32_t` value as a signed 32-bit `int`. -/
def int32ofNat (n : Nat) : Int :=
  if n < 2 ^ 31 then (n : Int) else (n : Int) - 2 ^ 32

/-- Truncate an `Int` (e.g. an `int64_t` or `int` expression) to `uint32_t`. -/
def u32ofInt (i : Int) : Nat := (i.emod (2 ^ 32)).toNat

/-- `x & ~7` on a two's-complement integer: round down to a multiple of 8. -/
def alignDown8 (x : Int) : Int := x - x.emod 8

/-- Little-endian 32-bit read from a byte buffer (out-of-range bytes read 0,
the in-range case is the one the C code exercises). -/
def read32 (data : List Nat) (p : Nat) : Nat :=
  data.getD p 0 + data.getD (p + 1) 0 * 256 + data.getD (p + 2) 0 * 65536 +
    data.getD (p + 3) 0 * 16777216

/-- Little-endian 32-bit in-place write (`*(uint32_t *)(data + p) = v`). -/
def write32 (data : List Nat) (p : Nat) (v : Nat) : List Nat :=
  ((((data.set p (v % 256)).set (p + 1) (v / 256 % 256)).set
      (p + 2) (v / 65536 % 256)).set (p + 3) (v / 16777216 % 256))

/-! ## Data structures -/

/-- Symbol record (`struct Sym`).  Pointers (`prev`, `prev_tok`) are modelled
as indices into an allocation-ordered heap; `prev` is implicit in the scope
spine lists below.  `name = none` models a NULL name. -/
structure Sym where
  v : Nat := 0
  name : Option String := none
  t : Nat := 0
  r : Nat := 0
  c : Int := 0
  prevTok : Option Nat := none
deriving Repr, DecidableEq, Inhabited

/-- Value-stack entry (`SValue`).  `sym` is a heap index or `none` (NULL). -/
structure SValue where
  t : Nat := 0
  r : Nat := 0
  r2 : Nat := 0
  c : Int := 0
  sym : Option Nat := none
deriving Repr, DecidableEq, Inhabited

/-- Symbol table (`SymStack`): hash buckets (heads as heap indices) plus the
scope spine (head of the list = `top`). -/
structure SymStack where
  hash : List (Option Nat) := List.replicate SYM_HASH_SIZE none
  spine : List Nat := []
deriving Repr, DecidableEq, Inhabited

/-- The compiler-state fields (`TCCState`) the embedded functions touch.
Sections are their data buffers; a missing section is `none` (NULL). -/
structure Core where
  text : Option (List Nat) := none
  dataSec : Option (List Nat) := none
  rdataSec : Option (List Nat) := none
  bssSec : Option (List Nat) := none
  ind : Nat := 0
  loc : Int := 0
  vstack : List SValue := []
  symHeap : List Sym := []
  globalStack : SymStack := {}
  localStack : SymStack := {}
  localScope : Nat := 0
  nbErrors : Nat := 0
  nbWarnings : Nat := 0
deriving Repr, DecidableEq, Inhabited

/-- `tcc_error`: diagnostics printing is I/O; the state effect is the error
counter increment. -/
def tcc_error (s : Core) : Core := { s with nbErrors := s.nbErrors + 1 }

/-- `tcc_warning`: state effect is the warning counter increment. -/
def tcc_warning (s : Core) : Core := { s with nbWarnings := s.nbWarnings + 1 }

/-- Top of the value stack, `s->vtop[0]` (only read when the stack is
nonempty in well-formed runs). -/
def vtop0 (s : Core) : SValue := s.vstack.headD default

/-- `s->vtop[-1]`, the entry below the top. -/
def vtop1 (s : Core) : SValue := s.vstack.tail.headD default

/-! ## Value stack operations (gen.c) -/

/-- `vsetc`: push a typed value.  The C code increments `vtop`, checks
`vtop >= vstack + VSTACK_SIZE`, and on overflow reports an error and undoes
the increment without writing. -/
def vsetc (s : Core) (t r : Nat) (vc : Int) : Core :=
  if s.vstack.length ≥ VSTACK_SIZE then
    tcc_error s
  else
    { s with vstack := { t := t, r := r, r2 := VT_CONST, c := vc, sym := none } :: s.vstack }

/-- `vset`: push a simple integer value. -/
def vset (s : Core) (t r : Nat) (v : Int) : Core := vsetc s t r v

/-- `vpush`: duplicate the top of stack (same overflow handling as `vsetc`). -/
def vpush (s : Core) : Core :=
  if s.vstack.length ≥ VSTACK_SIZE then
    tcc_error s
  else
    { s with vstack := s.vstack.headD default :: s.vstack }

/-- `vpop`: pop the top of stack; underflow reports an error and leaves the
stack alone. -/
def vpop (s : Core) : Core :=
  match s.vstack with
  | [] => tcc_error s
  | _ :: rest => { s with vstack := rest }

/-- `vswap`: exchange the two top entries; an error if fewer than two. -/
def vswap (s : Core) : Core :=
  match s.vstack with
  | a :: b :: rest => { s with vstack := b :: a :: rest }
  | _ => tcc_error s

/-- Field assignment `s->vtop->r = r` (no-op on an empty stack, which
well-formed callers never hit). -/
def vtop_set_r (s : Core) (r : Nat) : Core :=
  { s with vstack :=
      match s.vstack with
      | [] => []
      | v :: rest => { v with r := r } :: rest }

/-- `s->vtop->r = r; s->vtop->t = t` (the relational-result write-back). -/
def vtop_set_rt (s : Core) (r t : Nat) : Core :=
  { s with vstack :=
      match s.vstack with
      | [] => []
      | v :: rest => { v with r := r, t := t } :: rest }

/-- `s->vtop->t = t` (integer casts). -/
def vtop_set_t (s : Core) (t : Nat) : Core :=
  { s with vstack :=
      match s.vstack with
      | [] => []
      | v :: rest => { v with t := t } :: rest }

/-! ## Byte emitter and instruction-encoding helpers (x86_64-gen.c) -/

/-- `g`: append one byte to the text section and bump `ind` (a no-op when
there is no text section, as in the C `if (s->text_section)` guard). -/
def g (s : Core) (c : Nat) : Core :=
  match s.text with
  | some data => { s with text := some (data ++ [c % 256]), ind := s.ind + 1 }
  | none => s

/-- `gen_le32`: emit a 32-bit little-endian value (parameter is `uint32_t`,
hence the initial truncation). -/
def gen_le32 (s : Core) (v : Nat) : Core :=
  let v := v % 2 ^ 32
  let s := g s (v % 256)
  let s := g s (v / 256 % 256)
  let s := g s (v / 65536 % 256)
  g s (v / 16777216 % 256)

/-- `gen_le64`: emit a 64-bit little-endian value. -/
def gen_le64 (s : Core) (v : Nat) : Core :=
  let v := v % 2 ^ 64
  let s := gen_le32 s (v % 2 ^ 32)
  gen_le32 s (v / 2 ^ 32)

/-- `gen_rex`: emit a REX prefix when it differs from the bare `0x40`. -/
def gen_rex (s : Core) (w r x b : Nat) : Core :=
  let rex :=
    0x40 + (if w ≠ 0 then 0x08 else 0) + (if r > 7 then 0x04 else 0) +
      (if x > 7 then 0x02 else 0) + (if b > 7 then 0x01 else 0)
  if rex ≠ 0x40 then g s rex else s

/-- `gen_modrm`: the ModRM byte `(mod<<6) | ((reg&7)<<3) | (rm&7)`. -/
def gen_modrm (s : Core) (mod reg rm : Nat) : Core :=
  g s (mod * 64 + reg % 8 * 8 + rm % 8)

/-- `gen_modrm_local`: RBP-relative ModRM with 8- or 32-bit displacement.
(`offset & 0xff` on a two's-complement `int` is `offset.emod 256`.) -/
def gen_modrm_local (s : Core) (reg : Nat) (offset : Int) : Core :=
  if -128 ≤ offset ∧ offset ≤ 127 then
    let s := gen_modrm s 1 reg REG_RBP
    g s (offset.emod 256).toNat
  else
    let s := gen_modrm s 2 reg REG_RBP
    gen_le32 s (u32ofInt offset)

/-! ## load / store (x86_64-gen.c) -/

/-- `load`: materialize a value-stack entry into register `r`. -/
def load (s : Core) (r : Nat) (sv : SValue) : Core :=
  let t := sv.t &&& VT_BTYPE
  let fr := sv.r
  if fr &&& 0x00ff = VT_CONST then
    if sv.c = 0 then
      let s := gen_rex s 1 r 0 r
      let s := g s 0x31
      gen_modrm s 3 r r
    else if -0x80000000 ≤ sv.c ∧ sv.c ≤ 0x7fffffff then
      let s := gen_rex s 1 0 0 r
      let s := g s 0xc7
      let s := gen_modrm s 3 0 r
      gen_le32 s (u32ofInt sv.c)
    else
      let s := gen_rex s 1 0 0 r
      let s := g s (0xb8 + r % 8)
      gen_le64 s (sv.c.emod (2 ^ 64)).toNat
  else if fr &&& 0x00ff = VT_LOCAL ∨ fr &&& 0x00ff = (VT_LOCAL ||| VT_LVAL) then
    let size : Nat :=
      if t = VT_BYTE then 1 else if t = VT_SHORT then 2 else if t = VT_INT then 4 else 8
    if fr &&& VT_LVAL ≠ 0 then
      let s :=
        if size = 1 then
          let s := gen_rex s 0 r 0 REG_RBP
          let s := g s 0x0f
          g s (if sv.t &&& VT_UNSIGNED ≠ 0 then 0xb6 else 0xbe)
        else if size = 2 then
          let s := gen_rex s 0 r 0 REG_RBP
          let s := g s 0x0f
          g s (if sv.t &&& VT_UNSIGNED ≠ 0 then 0xb7 else 0xbf)
        else if size = 4 then
          if sv.t &&& VT_UNSIGNED ≠ 0 then
            let s := gen_rex s 0 r 0 REG_RBP
            g s 0x8b
          else
            let s := gen_rex s 1 r 0 REG_RBP
            g s 0x63
        else
          let s := gen_rex s 1 r 0 REG_RBP
          g s 0x8b
      gen_modrm_local s r sv.c
    else
      let s := gen_rex s 1 r 0 REG_RBP
      let s := g s 0x8d
      gen_modrm_local s r sv.c
  else if fr &&& 0x00ff < NB_REGS then
    let frReg := fr &&& 0x00ff
    if frReg ≠ r then
      let s := gen_rex s 1 r 0 frReg
      let s := g s 0x89
      gen_modrm s 3 frReg r
    else s
  else s

/-- `store`: store register `r` into the location denoted by `sv` (the C
condition's second disjunct `(fr & 0xff) == (VT_LOCAL & 0xff)` repeats the
first one, kept literally). -/
def store (s : Core) (r : Nat) (sv : SValue) : Core :=
  let t := sv.t &&& VT_BTYPE
  let fr := sv.r
  if fr &&& 0x00ff = VT_LOCAL ∨ fr &&& 0x00ff = VT_LOCAL &&& 0xff then
    let size : Nat :=
      if t = VT_BYTE then 1 else if t = VT_SHORT then 2 else if t = VT_INT then 4 else 8
    let s :=
      if size = 1 then
        let s := gen_rex s 0 r 0 REG_RBP
        g s 0x88
      else if size = 2 then
        let s := g s 0x66
        let s := gen_rex s 0 r 0 REG_RBP
        g s 0x89
      else if size = 4 then
        let s := gen_rex s 0 r 0 REG_RBP
        g s 0x89
      else
        let s := gen_rex s 1 r 0 REG_RBP
        g s 0x89
    gen_modrm_local s r sv.c
  else s

/-! ## Register spilling and materialization (gen.c) -/

/-- One step of `save_reg`'s scan: spill a single entry if it lives in `r`. -/
def save_reg_one (r : Nat) (acc : Core × List SValue) (sv : SValue) : Core × List SValue :=
  let (s, done) := acc
  if sv.r &&& 0x00ff = r then
    let loc' := alignDown8 (s.loc - 8)
    let spill : SValue := { t := sv.t, r := VT_LOCAL ||| VT_LVAL, c := loc' }
    let s := store { s with loc := loc' } r spill
    (s, done ++ [{ sv with r := VT_LOCAL ||| VT_LVAL, c := loc' }])
  else
    (s, done ++ [sv])

/-- `save_reg`: walk the live value stack bottom-to-top and spill every entry
currently held in register `r` to a fresh frame slot. -/
def save_reg (s : Core) (r : Nat) : Core :=
  let (s', stackRev) := s.vstack.reverse.foldl (save_reg_one r) (s, [])
  { s' with vstack := stackRev.reverse }

/-- `gv`: get the top of stack into a register of class `rc`; returns the
updated state and the chosen register. -/
def gv (s : Core) (rc : Nat) : Core × Nat :=
  if s.vstack = [] then
    (tcc_error s, REG_RAX)
  else
    let r := (vtop0 s).r &&& 0x00ff
    let matched : Bool :=
      if r < NB_REGS then
        if rc &&& RC_RAX ≠ 0 ∧ r ≠ REG_RAX then false
        else if rc &&& RC_RCX ≠ 0 ∧ r ≠ REG_RCX then false
        else if rc &&& RC_RDX ≠ 0 ∧ r ≠ REG_RDX then false
        else true
      else false
    if matched then (s, r)
    else
      let r' :=
        if rc &&& RC_RAX ≠ 0 then REG_RAX
        else if rc &&& RC_RCX ≠ 0 then REG_RCX
        else if rc &&& RC_RDX ≠ 0 then REG_RDX
        else REG_RAX
      let s := save_reg s r'
      let s := load s r' (vtop0 s)
      let s := vtop_set_r s r'
      (s, r')

/-- `gv2`: load the second operand into RCX and the first into RAX (the two
class arguments are ignored by the C body). -/
def gv2 (s : Core) (_rc1 _rc2 : Nat) : Core :=
  let s := (gv s RC_RCX).1
  let s := vswap s
  let s := (gv s RC_RAX).1
  vswap s

/-! ## Integer operation encoder `gen_opi` (x86_64-gen.c) -/

/-- The `setcc` second opcode byte chosen by `gen_opi` for a relational
operator, from the signedness of the operand type `t`. -/
def setccOf (op t : Nat) : Nat :=
  if op = TOK_EQ then 0x94
  else if op = TOK_NE then 0x95
  else if op = 60 then (if t &&& VT_UNSIGNED ≠ 0 then 0x92 else 0x9c)
  else if op = 62 then (if t &&& VT_UNSIGNED ≠ 0 then 0x97 else 0x9f)
  else if op = TOK_LE then (if t &&& VT_UNSIGNED ≠ 0 then 0x96 else 0x9e)
  else if op = TOK_GE then (if t &&& VT_UNSIGNED ≠ 0 then 0x93 else 0x9d)
  else 0x94

/-- `gen_opi`, case `'+'`: `add r, fr`. -/
def gen_opi_add (s : Core) : Core :=
  let s := gv2 s RC_INT RC_INT
  let r := (vtop1 s).r &&& 0xff
  let fr := (vtop0 s).r &&& 0xff
  let s := gen_rex s 1 r 0 fr
  let s := g s 0x01
  let s := gen_modrm s 3 fr r
  vpop s

/-- `gen_opi`, case `'-'`: `sub r, fr`. -/
def gen_opi_sub (s : Core) : Core :=
  let s := gv2 s RC_INT RC_INT
  let r := (vtop1 s).r &&& 0xff
  let fr := (vtop0 s).r &&& 0xff
  let s := gen_rex s 1 r 0 fr
  let s := g s 0x29
  let s := gen_modrm s 3 fr r
  vpop s

/-- `gen_opi`, case `'*'`: `imul rax, fr`; result in RAX. -/
def gen_opi_mul (s : Core) : Core :=
  let s := gv2 s RC_RAX RC_INT
  let fr := (vtop0 s).r &&& 0xff
  let s := gen_rex s 1 REG_RAX 0 fr
  let s := g s 0x0f
  let s := g s 0xaf
  let s := gen_modrm s 3 REG_RAX fr
  let s := vpop s
  vtop_set_r s REG_RAX

/-- `gen_opi`, cases `'/'` and `'%'`: `cqo; idiv fr`, moving an RDX divisor
to RCX first; quotient in RAX, remainder in RDX. -/
def gen_opi_divmod (s : Core) (op : Nat) : Core :=
  let s := gv2 s RC_RAX RC_INT
  let fr := (vtop0 s).r &&& 0xff
  let s :=
    if fr = REG_RDX then
      let s := gen_rex s 1 REG_RCX 0 REG_RDX
      let s := g s 0x89
      gen_modrm s 3 REG_RDX REG_RCX
    else s
  let fr := if fr = REG_RDX then REG_RCX else fr
  let s := gen_rex s 1 0 0 0
  let s := g s 0x99
  let s := gen_rex s 1 0 0 fr
  let s := g s 0xf7
  let s := gen_modrm s 3 7 fr
  let s := vpop s
  let res := if op = 37 then REG_RDX else REG_RAX
  vtop_set_r s res

/-- `gen_opi`, case `'&'`: `and r, fr`. -/
def gen_opi_and (s : Core) : Core :=
  let s := gv2 s RC_INT RC_INT
  let r := (vtop1 s).r &&& 0xff
  let fr := (vtop0 s).r &&& 0xff
  let s := gen_rex s 1 r 0 fr
  let s := g s 0x21
  let s := gen_modrm s 3 fr r
  vpop s

/-- `gen_opi`, case `'|'`: `or r, fr`. -/
def gen_opi_or (s : Core) : Core :=
  let s := gv2 s RC_INT RC_INT
  let r := (vtop1 s).r &&& 0xff
  let fr := (vtop0 s).r &&& 0xff
  let s := gen_rex s 1 r 0 fr
  let s := g s 0x09
  let s := gen_modrm s 3 fr r
  vpop s

/-- `gen_opi`, case `'^'`: `xor r, fr`. -/
def gen_opi_xor (s : Core) : Core :=
  let s := gv2 s RC_INT RC_INT
  let r := (vtop1 s).r &&& 0xff
  let fr := (vtop0 s).r &&& 0xff
  let s := gen_rex s 1 r 0 fr
  let s := g s 0x31
  let s := gen_modrm s 3 fr r
  vpop s

/-- `gen_opi`, case `TOK_SHL`: `shl r, cl`. -/
def gen_opi_shl (s : Core) : Core :=
  let s := gv2 s RC_INT RC_RCX
  let r := (vtop1 s).r &&& 0xff
  let s := gen_rex s 1 0 0 r
  let s := g s 0xd3
  let s := gen_modrm s 3 4 r
  vpop s

/-- `gen_opi`, case `TOK_SHR`: `sar r, cl` (`shr` for unsigned). -/
def gen_opi_shr (s : Core) : Core :=
  let s := gv2 s RC_INT RC_RCX
  let r := (vtop1 s).r &&& 0xff
  let s := gen_rex s 1 0 0 r
  let s := g s 0xd3
  let s := gen_modrm s 3 (if (vtop1 s).t &&& VT_UNSIGNED ≠ 0 then 5 else 7) r
  vpop s

/-- `gen_opi`, the six relational cases: `cmp r, fr; setcc al; movzx rax, al`;
result in RAX with type `int`. -/
def gen_opi_rel (s : Core) (op : Nat) : Core :=
  let s := gv2 s RC_INT RC_INT
  let r := (vtop1 s).r &&& 0xff
  let fr := (vtop0 s).r &&& 0xff
  let s := gen_rex s 1 r 0 fr
  let s := g s 0x39
  let s := gen_modrm s 3 fr r
  let s := vpop s
  let s := g s 0x0f
  let s := g s (setccOf op (vtop0 s).t)
  let s := gen_modrm s 3 0 REG_RAX
  let s := gen_rex s 1 REG_RAX 0 REG_RAX
  let s := g s 0x0f
  let s := g s 0xb6
  let s := gen_modrm s 3 REG_RAX REG_RAX
  vtop_set_rt s REG_RAX VT_INT

/-- `gen_opi`, case `'~'`: `not r`. -/
def gen_opi_bnot (s : Core) : Core :=
  let r := (gv s RC_INT).2
  let s := (gv s RC_INT).1
  let s := gen_rex s 1 0 0 r
  let s := g s 0xf7
  gen_modrm s 3 2 r

/-- `gen_opi`, case `'!'`: `test r, r; sete al; movzx rax, al`. -/
def gen_opi_lnot (s : Core) : Core :=
  let r := (gv s RC_INT).2
  let s := (gv s RC_INT).1
  let s := gen_rex s 1 r 0 r
  let s := g s 0x85
  let s := gen_modrm s 3 r r
  let s := g s 0x0f
  let s := g s 0x94
  let s := gen_modrm s 3 0 REG_RAX
  let s := gen_rex s 1 REG_RAX 0 REG_RAX
  let s := g s 0x0f
  let s := g s 0xb6
  let s := gen_modrm s 3 REG_RAX REG_RAX
  vtop_set_r s REG_RAX

/-- `gen_opi`: the operand-count guard and the operator switch, one
definition per case above.  Operators are the C `char` codes
(`'+' = 43` …) and the `TOK_*` codes. -/
def gen_opi (s : Core) (op : Nat) : Core :=
  if s.vstack.length < 2 ∧ op ≠ 33 ∧ op ≠ 126 then
    tcc_error s
  else if op = 43 then gen_opi_add s
  else if op = 45 then gen_opi_sub s
  else if op = 42 then gen_opi_mul s
  else if op = 47 ∨ op = 37 then gen_opi_divmod s op
  else if op = 38 then gen_opi_and s
  else if op = 124 then gen_opi_or s
  else if op = 94 then gen_opi_xor s
  else if op = TOK_SHL then gen_opi_shl s
  else if op = TOK_SHR then gen_opi_shr s
  else if op = TOK_EQ ∨ op = TOK_NE ∨ op = 60 ∨ op = 62 ∨ op = TOK_LE ∨ op = TOK_GE then
    gen_opi_rel s op
  else if op = 126 then gen_opi_bnot s
  else if op = 33 then gen_opi_lnot s
  else s

/-! ## Generic operation dispatch, casts (gen.c) -/

/-- `gen_op`: dispatch an operator over the value stack. -/
def gen_op (s : Core) (op : Nat) : Core :=
  if s.vstack = [] then
    tcc_error s
  else if op = 61 then
    -- '=' assignment
    if s.vstack.length < 2 then
      tcc_error s
    else
      let r := (gv s RC_INT).2
      let s := (gv s RC_INT).1
      let s := vpop s
      let s := store s r (vtop0 s)
      vtop_set_r s r
  else if op = 43 ∨ op = 45 ∨ op = 42 ∨ op = 47 ∨ op = 37 ∨ op = 38 ∨ op = 124 ∨
      op = 94 ∨ op = TOK_SHL ∨ op = TOK_SHR then
    gen_opi s op
  else if op = TOK_EQ ∨ op = TOK_NE ∨ op = 60 ∨ op = 62 ∨ op = TOK_LE ∨ op = TOK_GE then
    gen_opi s op
  else if op = 33 then
    let s := (gv s RC_INT).1
    gen_opi s 33
  else if op = 126 then
    let s := (gv s RC_INT).1
    gen_opi s 126
  else
    tcc_warning s

/-- `gen_cvt_itof` (stub): warning only. -/
def gen_cvt_itof (s : Core) (_t : Nat) : Core := tcc_warning s

/-- `gen_cvt_ftoi` (stub): warning only. -/
def gen_cvt_ftoi (s : Core) (_t : Nat) : Core := tcc_warning s

/-- `gen_cast`: integer casts just rewrite the type word; float conversions
are stubbed warnings. -/
def gen_cast (s : Core) (t : Nat) : Core :=
  let fromType := (vtop0 s).t &&& VT_BTYPE
  let toType := t &&& VT_BTYPE
  if fromType = toType then
    vtop_set_t s t
  else if VT_FLOAT ≤ toType ∧ fromType < VT_FLOAT then
    gen_cvt_itof s t
  else if VT_FLOAT ≤ fromType ∧ toType < VT_FLOAT then
    gen_cvt_ftoi s t
  else
    vtop_set_t s t

/-! ## Function prologue / epilogue (x86_64-gen.c) -/

/-- `gfunc_prolog`: Windows x64 prologue; spills RCX/RDX/R8/R9 to the shadow
slots and resets `loc`. -/
def gfunc_prolog (s : Core) (_t : Nat) : Core :=
  let s := g s 0x55
  let s := gen_rex s 1 REG_RBP 0 REG_RSP
  let s := g s 0x89
  let s := gen_modrm s 3 REG_RSP REG_RBP
  let s := gen_rex s 1 0 0 REG_RSP
  let s := g s 0x83
  let s := gen_modrm s 3 5 REG_RSP
  let s := g s 0x60
  let s := gen_rex s 1 REG_RCX 0 REG_RBP
  let s := g s 0x89
  let s := gen_modrm s 1 REG_RCX REG_RBP
  let s := g s 0x10
  let s := gen_rex s 1 REG_RDX 0 REG_RBP
  let s := g s 0x89
  let s := gen_modrm s 1 REG_RDX REG_RBP
  let s := g s 0x18
  let s := gen_rex s 1 REG_R8 0 REG_RBP
  let s := g s 0x89
  let s := gen_modrm s 1 REG_R8 REG_RBP
  let s := g s 0x20
  let s := gen_rex s 1 REG_R9 0 REG_RBP
  let s := g s 0x89
  let s := gen_modrm s 1 REG_R9 REG_RBP
  let s := g s 0x28
  { s with loc := 0 }

/-- `gfunc_epilog`: `mov rsp, rbp; pop rbp; ret`. -/
def gfunc_epilog (s : Core) : Core :=
  let s := gen_rex s 1 REG_RSP 0 REG_RBP
  let s := g s 0x89
  let s := gen_modrm s 3 REG_RBP REG_RSP
  let s := g s 0x5d
  g s 0xc3

/-- `gen_init`: create the `.text`, `.data` and `.bss` sections and reset the
code position. -/
def gen_init (s : Core) : Core :=
  { s with text := some [], dataSec := some [], bssSec := some [], ind := 0 }

/-! ## Function calls (x86_64-gen.c) -/

/-- The argument loop of `gfunc_call`: `for (i = nb_args - 1; i >= 0; i--)`.
The recursion argument is `i + 1`, so `gfunc_call_args s n` processes
`i = n-1, …, 0`. -/
def gfunc_call_args : Core → Nat → Core
  | s, 0 => s
  | s, n + 1 =>
    let i := n
    let s :=
      if i ≥ 4 then
        -- stack argument: materialize and push
        let s := (gv s RC_INT).1
        let argR := (vtop0 s).r &&& 0xff
        let s := if argR > 7 then g s 0x41 else s
        let s := g s (0x50 + argR % 8)
        vpop s
      else
        let rc := if i = 0 then RC_RCX else if i = 1 then RC_RDX else RC_INT
        let r := if i = 0 then REG_RCX else if i = 1 then REG_RDX
                 else if i = 2 then REG_R8 else REG_R9
        let s := (gv s rc).1
        let s :=
          if (vtop0 s).r &&& 0xff ≠ r then
            let src := (vtop0 s).r &&& 0xff
            let s := gen_rex s 1 r 0 src
            let s := g s 0x89
            gen_modrm s 3 src r
          else s
        vpop s
    gfunc_call_args s n

/-- `gfunc_call`: move arguments into place, then emit either a direct
`call rel32` with a zero placeholder operand (when the callee entry on the
value stack carries a symbol) or an indirect `call r/m64`; finally push the
`{int, RAX, 0}` result. -/
def gfunc_call (s : Core) (nb_args : Nat) : Core :=
  let s := gfunc_call_args s nb_args
  let s :=
    if s.vstack ≠ [] ∧ (vtop0 s).sym ≠ none then
      let s := g s 0xe8
      let s := gen_le32 s 0
      vpop s
    else
      let s := (gv s RC_INT).1
      let r := (vtop0 s).r &&& 0xff
      let s := if r > 7 then g s 0x41 else s
      let s := g s 0xff
      let s := gen_modrm s 3 2 (r % 8)
      vpop s
  vset s VT_INT REG_RAX 0

/-! ## Jumps, conditional jumps, labels (x86_64-gen.c) -/

/-- `gind`: allocate a fresh anonymous label: a zeroed `Sym` with `c = -1`
(empty fix-up list). -/
def gind (_s : Core) : Sym :=
  { v := 0, name := none, t := 0, r := 0, c := -1, prevTok := none }

/-- `gjmp`: emit `jmp rel32`; against an undefined label, thread the slot
into the fix-up list. -/
def gjmp (s : Core) (l : Sym) : Core × Sym :=
  let s := g s 0xe9
  if l.r = 1 then
    (gen_le32 s (u32ofInt (l.c - ((s.ind : Int) + 4))), l)
  else
    let s := gen_le32 s (u32ofInt l.c)
    (s, { l with c := (s.ind : Int) - 4 })

/-- `gtst`: emit `test reg, reg; je/jne rel32`, threading the fix-up list
exactly like `gjmp`. -/
def gtst (s : Core) (inv : Bool) (l : Sym) : Core × Sym :=
  let v0 := (vtop0 s).r &&& 0xff
  let v := if v0 ≥ NB_REGS then (gv s RC_INT).2 else v0
  let s := if v0 ≥ NB_REGS then (gv s RC_INT).1 else s
  let s := vpop s
  let s := gen_rex s 1 v 0 v
  let s := g s 0x85
  let s := gen_modrm s 3 v v
  let s := g s 0x0f
  let s := g s (if inv then 0x84 else 0x85)
  if l.r = 1 then
    (gen_le32 s (u32ofInt (l.c - ((s.ind : Int) + 4))), l)
  else
    let s := gen_le32 s (u32ofInt l.c)
    (s, { l with c := (s.ind : Int) - 4 })

/-- The fix-up patching loop of `glabel` (`while (p != -1)`), with explicit
fuel standing in for the C loop's termination on a well-formed chain. -/
def glabelAux (ind : Nat) : Nat → Int → List Nat → List Nat
  | 0, _, data => data
  | fuel + 1, p, data =>
    if p = -1 then data
    else
      let rel : Int := (ind : Int) - (p + 4)
      let next : Nat := read32 data p.toNat
      let data' := write32 data p.toNat (u32ofInt rel)
      glabelAux ind fuel (int32ofNat next) data'

/-- `glabel`: walk the fix-up chain, overwrite each 32-bit slot with
`ind - (p + 4)`, then mark the label defined at the current offset. -/
def glabel (s : Core) (l : Sym) : Core × Sym :=
  let data := s.text.getD []
  let data' := glabelAux s.ind (data.length + 1) l.c data
  ({ s with text := s.text.map fun _ => data' },
   { l with r := 1, c := (s.ind : Int) })

/-! ## Symbol tables (sym.c)

Symbols live on an allocation-ordered heap (`Core.symHeap`); `prev_tok`
links are heap indices, the scope spine (`prev` links plus `top`) is the
`spine` list of each `SymStack`. -/

/-- `str_hash`: multiply-by-31 over the bytes (`unsigned int` arithmetic),
masked to the table size.  Identifier names are ASCII, so `Char.toNat` is
the byte value. -/
def str_hash (name : String) : Nat :=
  (name.data.foldl (fun h c => (h * 31 + c.toNat) % 2 ^ 32) 0) % SYM_HASH_SIZE

/-- The stack `sym_push2` targets: locals inside a scope, globals outside. -/
def activeStack (s : Core) : SymStack :=
  if s.localScope > 0 then s.localStack else s.globalStack

/-- `sym_push2`: allocate a symbol, link it into the hash bucket of the
active stack (when named) and onto its scope spine.  Returns the new heap
index (the C pointer). -/
def sym_push2 (s : Core) (name : Option String) (t r : Nat) (c : Int) : Core × Nat :=
  let id := s.symHeap.length
  let st := activeStack s
  let sym : Sym :=
    match name with
    | some n =>
      { v := str_hash n, name := some n, t := t, r := r, c := c,
        prevTok := st.hash.getD (str_hash n) none }
    | none => { v := 0, name := none, t := t, r := r, c := c, prevTok := none }
  let st :=
    match name with
    | some n => { st with hash := st.hash.set (str_hash n) (some id), spine := id :: st.spine }
    | none => { st with spine := id :: st.spine }
  let s := { s with symHeap := s.symHeap ++ [sym] }
  if s.localScope > 0 then ({ s with localStack := st }, id)
  else ({ s with globalStack := st }, id)

/-- `sym_pop`: pop symbols until the marker `b`, restoring each popped
symbol's hash bucket to its recorded predecessor.  (Freeing is a no-op in
the model; the heap is append-only.) -/
def sym_pop_go (heap : List Sym) (b : Option Nat) : List Nat → List (Option Nat) → SymStack
  | [], hash => { hash := hash, spine := [] }
  | id :: rest, hash =>
    if some id = b then { hash := hash, spine := id :: rest }
    else
      let sym := heap.getD id default
      let hash :=
        match sym.name with
        | some n => hash.set (str_hash n) sym.prevTok
        | none => hash
      sym_pop_go heap b rest hash

/-- `sym_pop` on one symbol stack. -/
def sym_pop (st : SymStack) (heap : List Sym) (b : Option Nat) : SymStack :=
  sym_pop_go heap b st.spine st.hash

/-- The bucket-chain walk of `sym_find2`, with fuel for the `prev_tok`
traversal (chains strictly decrease heap indices in well-formed states). -/
def sym_chain_find (heap : List Sym) (name : String) : Nat → Option Nat → Option Nat
  | 0, _ => none
  | _, none => none
  | fuel + 1, some id =>
    let sym := heap.getD id default
    if sym.name = some name then some id
    else sym_chain_find heap name fuel sym.prevTok

/-- `sym_find2`: look the name up in the local stack's bucket chain, then in
the global one; returns the heap index (the C pointer). -/
def sym_find2 (s : Core) (name : String) : Option Nat :=
  let h := str_hash name
  match sym_chain_find s.symHeap name (s.symHeap.length + 1) (s.localStack.hash.getD h none) with
  | some id => some id
  | none => sym_chain_find s.symHeap name (s.symHeap.length + 1) (s.globalStack.hash.getD h none)

/-- The symbol record `sym_find2` gives access to (what callers dereference). -/
def sym_find2_sym (s : Core) (name : String) : Option Sym :=
  (sym_find2 s name).map fun id => s.symHeap.getD id default

/-! ## Sections (section.c) -/

/-- `section_add`: append bytes, return the pre-append offset. -/
def section_add (sec : List Nat) (bytes : List Nat) : List Nat × Nat :=
  (sec ++ bytes, sec.length)

/-! ## PE writer (pe.c) -/

def PE_HEADER_SIZE : Nat := 0x200
def SECTION_ALIGNMENT : Nat := 0x1000
def FILE_ALIGNMENT : Nat := 0x200
def IMAGE_BASE : Nat := 0x140000000

/-- `align_up` on `uint32_t` values (`alignment` is a power of two). -/
def align_up (v a : Nat) : Nat :=
  let x := (v + a - 1) % 2 ^ 32
  x - x % a

/-- 32-bit `uint32_t` addition. -/
def u32add (a b : Nat) : Nat := (a + b) % 2 ^ 32

/-- `write_u16` into the header buffer. -/
def pe_write_u16 (p : List Nat) (off v : Nat) : List Nat :=
  let v := v % 2 ^ 16
  (p.set off (v % 256)).set (off + 1) (v / 256 % 256)

/-- `write_u32` into the header buffer. -/
def pe_write_u32 (p : List Nat) (off v : Nat) : List Nat :=
  let v := v % 2 ^ 32
  ((((p.set off (v % 256)).set (off + 1) (v / 256 % 256)).set
      (off + 2) (v / 65536 % 256)).set (off + 3) (v / 16777216 % 256))

/-- `write_u64` into the header buffer. -/
def pe_write_u64 (p : List Nat) (off v : Nat) : List Nat :=
  let v := v % 2 ^ 64
  pe_write_u32 (pe_write_u32 p off (v % 2 ^ 32)) (off + 4) (v / 2 ^ 32)

/-- Write a literal byte string (a `memcpy` of a section name). -/
def pe_set_bytes (p : List Nat) (off : Nat) (bs : List Nat) : List Nat :=
  (bs.foldl (fun (acc : List Nat × Nat) b => (acc.1.set acc.2 b, acc.2 + 1)) (p, off)).1

/-- The data size of an optional section (`data_size`, 0 if absent). -/
def secSize (sec : Option (List Nat)) : Nat := (sec.getD []).length

/-- Result of `pe_output_file`: the state (the minimal `main` may have been
appended to `.text`), the section count, and the 0x200-byte header blob.
The `fwrite` serialization of header and padded section bodies is process
I/O and is not part of the state model. -/
structure PEOut where
  st : Core
  numSections : Nat
  header : List Nat
deriving Repr, DecidableEq

/-- The section-header table of `pe_output_file` (the per-section loop at the
end of the header construction), written at offset 0x188 onward. -/
def pe_section_headers (s : Core) (h : List Nat) : List Nat :=
  let so : Nat := 0x188
  let fo : Nat := PE_HEADER_SIZE
  let va : Nat := SECTION_ALIGNMENT
  let (h, so, fo, va) :=
    if s.text.isSome ∧ secSize s.text > 0 then
      let h := pe_set_bytes h so [0x2e, 0x74, 0x65, 0x78, 0x74, 0, 0, 0]  -- ".text"
      let h := pe_write_u32 h (so + 8) (secSize s.text % 2 ^ 32)
      let h := pe_write_u32 h (so + 12) va
      let h := pe_write_u32 h (so + 16) (align_up (secSize s.text % 2 ^ 32) FILE_ALIGNMENT)
      let h := pe_write_u32 h (so + 20) fo
      let h := pe_write_u32 h (so + 36) 0x60000020  -- CODE | EXECUTE | READ
      (h, so + 40, u32add fo (align_up (secSize s.text % 2 ^ 32) FILE_ALIGNMENT),
       u32add va (align_up (secSize s.text % 2 ^ 32) SECTION_ALIGNMENT))
    else (h, so, fo, va)
  let (h, so, fo, va) :=
    if s.dataSec.isSome ∧ secSize s.dataSec > 0 then
      let h := pe_set_bytes h so [0x2e, 0x64, 0x61, 0x74, 0x61, 0, 0, 0]  -- ".data"
      let h := pe_write_u32 h (so + 8) (secSize s.dataSec % 2 ^ 32)
      let h := pe_write_u32 h (so + 12) va
      let h := pe_write_u32 h (so + 16) (align_up (secSize s.dataSec % 2 ^ 32) FILE_ALIGNMENT)
      let h := pe_write_u32 h (so + 20) fo
      let h := pe_write_u32 h (so + 36) 0xc0000040  -- INIT_DATA | READ | WRITE
      (h, so + 40, u32add fo (align_up (secSize s.dataSec % 2 ^ 32) FILE_ALIGNMENT),
       u32add va (align_up (secSize s.dataSec % 2 ^ 32) SECTION_ALIGNMENT))
    else (h, so, fo, va)
  let (h, _so, _fo, _va) :=
    if s.rdataSec.isSome ∧ secSize s.rdataSec > 0 then
      let h := pe_set_bytes h so [0x2e, 0x72, 0x64, 0x61, 0x74, 0x61, 0, 0]  -- ".rdata"
      let h := pe_write_u32 h (so + 8) (secSize s.rdataSec % 2 ^ 32)
      let h := pe_write_u32 h (so + 12) va
      let h := pe_write_u32 h (so + 16) (align_up (secSize s.rdataSec % 2 ^ 32) FILE_ALIGNMENT)
      let h := pe_write_u32 h (so + 20) fo
      let h := pe_write_u32 h (so + 36) 0x40000040  -- INIT_DATA | READ
      (h, so + 40, u32add fo (align_up (secSize s.rdataSec % 2 ^ 32) FILE_ALIGNMENT),
       u32add va (align_up (secSize s.rdataSec % 2 ^ 32) SECTION_ALIGNMENT))
    else (h, so, fo, va)
  h

/-- `pe_output_file` after section counting and the minimal `main`: every
header field computation, in source order, ending with the section table. -/
def pe_output_rest (s : Core) (num : Nat) : PEOut :=
  let h := List.replicate PE_HEADER_SIZE 0
  let h := h.set 0 77   -- 'M'
  let h := h.set 1 90   -- 'Z'
  let h := pe_write_u32 h 0x3c 0x80
  let h := h.set 0x80 80  -- 'P'
  let h := h.set 0x81 69  -- 'E'
  let h := h.set 0x82 0
  let h := h.set 0x83 0
  let h := pe_write_u16 h 0x84 0x8664
  let h := pe_write_u16 h 0x86 num
  let h := pe_write_u32 h 0x88 0
  let h := pe_write_u32 h 0x8c 0
  let h := pe_write_u32 h 0x90 0
  let h := pe_write_u16 h 0x94 240
  let h := pe_write_u16 h 0x96 0x0022  -- EXECUTABLE_IMAGE | LARGE_ADDRESS_AWARE
  let h := pe_write_u16 h 0x98 0x20b
  let h := h.set 0x9a 1
  let h := h.set 0x9b 0
  let sizeOfCode :=
    if s.text.isSome then align_up (secSize s.text % 2 ^ 32) FILE_ALIGNMENT else 0
  let sizeOfInit :=
    (if s.dataSec.isSome then align_up (secSize s.dataSec % 2 ^ 32) FILE_ALIGNMENT else 0) +
    (if s.rdataSec.isSome then align_up (secSize s.rdataSec % 2 ^ 32) FILE_ALIGNMENT else 0)
  let h := pe_write_u32 h 0x9c sizeOfCode
  let h := pe_write_u32 h 0xa0 sizeOfInit
  let h := pe_write_u32 h 0xa4 (if s.bssSec.isSome then secSize s.bssSec % 2 ^ 32 else 0)
  let entryPoint : Nat :=
    match sym_find2 s "main" with
    | some id => u32add SECTION_ALIGNMENT (u32ofInt (s.symHeap.getD id default).c)
    | none => SECTION_ALIGNMENT
  let h := pe_write_u32 h 0xa8 entryPoint
  let h := pe_write_u32 h 0xac SECTION_ALIGNMENT
  let h := pe_write_u64 h 0xb0 IMAGE_BASE
  let h := pe_write_u32 h 0xb8 SECTION_ALIGNMENT
  let h := pe_write_u32 h 0xbc FILE_ALIGNMENT
  let h := pe_write_u16 h 0xc0 6
  let h := pe_write_u16 h 0xc2 0
  let h := pe_write_u16 h 0xc4 0
  let h := pe_write_u16 h 0xc6 0
  let h := pe_write_u16 h 0xc8 6
  let h := pe_write_u16 h 0xca 0
  let h := pe_write_u32 h 0xcc 0
  let va : Nat := SECTION_ALIGNMENT
  let va := if s.text.isSome ∧ secSize s.text > 0 then
      u32add va (align_up (secSize s.text % 2 ^ 32) SECTION_ALIGNMENT) else va
  let va := if s.dataSec.isSome ∧ secSize s.dataSec > 0 then
      u32add va (align_up (secSize s.dataSec % 2 ^ 32) SECTION_ALIGNMENT) else va
  let va := if s.rdataSec.isSome ∧ secSize s.rdataSec > 0 then
      u32add va (align_up (secSize s.rdataSec % 2 ^ 32) SECTION_ALIGNMENT) else va
  let va := if s.bssSec.isSome ∧ secSize s.bssSec > 0 then
      u32add va (align_up (secSize s.bssSec % 2 ^ 32) SECTION_ALIGNMENT) else va
  let h := pe_write_u32 h 0xd0 va
  let h := pe_write_u32 h 0xd4 PE_HEADER_SIZE
  let h := pe_write_u32 h 0xd8 0
  let h := pe_write_u16 h 0xdc 3      -- IMAGE_SUBSYSTEM_WINDOWS_CUI
  let h := pe_write_u16 h 0xde 0x8160
  let h := pe_write_u64 h 0xe0 0x100000
  let h := pe_write_u64 h 0xe8 0x1000
  let h := pe_write_u64 h 0xf0 0x100000
  let h := pe_write_u64 h 0xf8 0x1000
  let h := pe_write_u32 h 0x100 0
  let h := pe_write_u32 h 0x104 16
  let h := pe_section_headers s h
  { st := s, numSections := num, header := h }

/-- `pe_output_file` up to the `fopen`: section counting, the fallback
minimal `main`, and the header construction. -/
def pe_output_file (s : Core) : PEOut :=
  let num : Nat :=
    (if s.text.isSome ∧ secSize s.text > 0 then 1 else 0) +
    (if s.dataSec.isSome ∧ secSize s.dataSec > 0 then 1 else 0) +
    (if s.rdataSec.isSome ∧ secSize s.rdataSec > 0 then 1 else 0) +
    (if s.bssSec.isSome ∧ secSize s.bssSec > 0 then 1 else 0)
  let (s, num) :=
    if num = 0 ∧ s.text.isSome then
      -- minimal main: push rbp; mov rbp, rsp; xor eax, eax; pop rbp; ret
      let s := g s 0x55
      let s := g s 0x48
      let s := g s 0x89
      let s := g s 0xe5
      let s := g s 0x31
      let s := g s 0xc0
      let s := g s 0x5d
      let s := g s 0xc3
      (s, 1)
    else (s, num)
  pe_output_rest s num

/-! ## Parser (parse.c)

The lexer is modelled as a token stream: `next` pops the next token into the
current-token fields.  The expression productions form one fuelled
interpreter `parseRun` indexed by a production tag; every recursive call
runs on the predecessor fuel, and every theorem quantifies over the fuel. -/

/-- A token: the `s->tok` code plus the `s->tokc` payload. -/
structure Token where
  tok : Nat := 0
  i : Int := 0
  str : String := ""
deriving Repr, DecidableEq, Inhabited

/-- Parser-facing state: current token (code and payload), the remaining
stream, and the compiler core. -/
structure PState where
  cur : Nat := 0
  curI : Int := 0
  curS : String := ""
  stream : List Token := []
  core : Core := {}
deriving Repr, DecidableEq, Inhabited

/-- Apply a code-generation effect to the core. -/
def liftCore (f : Core → Core) (st : PState) : PState := { st with core := f st.core }

/-- `next`: advance to the next token (end of stream is `TOK_EOF`). -/
def pnext (st : PState) : PState :=
  match st.stream with
  | [] => { st with cur := TOK_EOF }
  | t :: rest => { st with cur := t.tok, curI := t.i, curS := t.str, stream := rest }

/-- `expect`: error if the current token differs. -/
def expect (st : PState) (tok : Nat) : PState :=
  if st.cur ≠ tok then liftCore tcc_error st else st

/-- `skip`: `expect` then `next` (the C `skip` advances in either case). -/
def pskip (st : PState) (tok : Nat) : PState := pnext (expect st tok)

/-- `s->vtop->r |= VT_LVAL` (dereference and array indexing). -/
def vtop_or_lval (c : Core) : Core :=
  { c with vstack :=
      match c.vstack with
      | [] => []
      | v :: rest => { v with r := v.r ||| VT_LVAL } :: rest }

/-- `s->vtop->sym = sym` after a `vsetc` in `expr_primary`. -/
def vtop_set_sym (c : Core) (id : Nat) : Core :=
  { c with vstack :=
      match c.vstack with
      | [] => []
      | v :: rest => { v with sym := some id } :: rest }

/-- Byte list of an ASCII string payload. -/
def strBytes (s : String) : List Nat := s.data.map Char.toNat

/-- `t & ~VT_BTYPE`: clear the low four (base-type) bits. -/
def clearBtype (t : Nat) : Nat := t - t % 16

/-- The specifier-accumulation loop of `parse_type`.  Accumulator:
`(t, sign, size_mod, type_found)` as in the C locals. -/
def parse_type_go : Nat → PState → Nat → Nat → Nat → Bool → PState × Nat × Nat × Nat × Bool
  | 0, st, t, sign, size_mod, type_found => (st, t, sign, size_mod, type_found)
  | fuel + 1, st, t, sign, size_mod, type_found =>
    if st.cur = TOK_VOID then parse_type_go fuel (pnext st) VT_VOID sign size_mod true
    else if st.cur = TOK_CHAR then parse_type_go fuel (pnext st) VT_BYTE sign size_mod true
    else if st.cur = TOK_SHORT then parse_type_go fuel (pnext st) t sign 1 true
    else if st.cur = TOK_INT then parse_type_go fuel (pnext st) VT_INT sign size_mod true
    else if st.cur = TOK_LONG then
      parse_type_go fuel (pnext st) t sign (if size_mod = 2 then 3 else 2) true
    else if st.cur = TOK_FLOAT then parse_type_go fuel (pnext st) VT_FLOAT sign size_mod true
    else if st.cur = TOK_DOUBLE then parse_type_go fuel (pnext st) VT_DOUBLE sign size_mod true
    else if st.cur = TOK_SIGNED then parse_type_go fuel (pnext st) t 1 size_mod true
    else if st.cur = TOK_UNSIGNED then parse_type_go fuel (pnext st) t 2 size_mod true
    else if st.cur = TOK_CONST then parse_type_go fuel (pnext st) (t ||| VT_CONSTANT) sign size_mod type_found
    else if st.cur = TOK_STATIC then parse_type_go fuel (pnext st) (t ||| VT_STATIC) sign size_mod type_found
    else if st.cur = TOK_EXTERN then parse_type_go fuel (pnext st) (t ||| VT_EXTERN) sign size_mod type_found
    else (st, t, sign, size_mod, type_found)

/-- `parse_type`: returns `none` for the C `-1` no-type sentinel. -/
def parse_type (fuel : Nat) (st : PState) : PState × Option Nat :=
  let (st, t, sign, size_mod, type_found) := parse_type_go fuel st 0 0 0 false
  if ¬type_found then (st, none)
  else
    let t :=
      if t &&& VT_BTYPE = 0 then
        if size_mod = 1 then clearBtype t ||| VT_SHORT
        else if size_mod ≥ 2 then clearBtype t ||| VT_LLONG
        else if sign ≠ 0 then clearBtype t ||| VT_INT
        else t
      else t
    let t := if sign = 2 then t ||| VT_UNSIGNED else t
    (st, some t)

/-- The `const`-qualifier loop inside `parse_pointer`. -/
def parse_pointer_cv : Nat → PState → Nat → PState × Nat
  | 0, st, t => (st, t)
  | fuel + 1, st, t =>
    if st.cur = TOK_CONST then parse_pointer_cv fuel (pnext st) (t ||| VT_CONSTANT)
    else (st, t)

/-- `parse_pointer`: `t = VT_PTR | (t << 16)` per star (`|` of disjoint bit
ranges, written as an addition). -/
def parse_pointer : Nat → PState → Nat → PState × Nat
  | 0, st, t => (st, t)
  | fuel + 1, st, t =>
    if st.cur = 42 then
      let st := pnext st
      let t := VT_PTR + t * 65536
      let (st, t) := parse_pointer_cv fuel st t
      parse_pointer fuel st t
    else (st, t)

/-- `sizeof(type)`'s size table; `none` is the C `-1` whose `& VT_BTYPE`
(`= 0xf`) matches no case, giving the default 4. -/
def sizeof_of_type (t : Option Nat) : Int :=
  match t with
  | none => 4
  | some t =>
    if t &&& VT_BTYPE = VT_BYTE then 1
    else if t &&& VT_BTYPE = VT_SHORT then 2
    else if t &&& VT_BTYPE = VT_LLONG then 8
    else if t &&& VT_BTYPE = VT_PTR then 8
    else 4

/-- The `expr_primary` code for `TOK_IDENT` (identifier lookup with the
implicit-function K&R fallback). -/
def primary_ident (name : String) (c : Core) : Core :=
  let (c, id) :=
    match sym_find2 c name with
    | some id => (c, id)
    | none => sym_push2 c (some name) (VT_FUNC ||| VT_INT) VT_CONST 0
  let sym := c.symHeap.getD id default
  if sym.t &&& VT_BTYPE = VT_FUNC then
    vtop_set_sym (vsetc c sym.t (VT_CONST ||| VT_SYM) sym.c) id
  else
    vtop_set_sym (vsetc c sym.t (sym.r ||| VT_LVAL) sym.c) id

/-- The `expr_primary` code for `TOK_STR` (append to `.rdata`, created on
demand; push the offset as a `{ptr, CONST|SYM}` value). -/
def primary_string (str : String) (c : Core) : Core :=
  let c := if c.rdataSec = none then { c with rdataSec := some [] } else c
  let data := c.rdataSec.getD []
  let (data', offset) := section_add data (strBytes str ++ [0])
  let c := { c with rdataSec := some data' }
  vsetc c VT_PTR (VT_CONST ||| VT_SYM) (offset : Int)

/-- Production tags for the expression-parser interpreter: `*E` entry
productions, `*L` their `while` loops, `callArgs n` the argument loop of a
call with `n` arguments parsed so far. -/
inductive PTag where
  | eqE | orE | orL | andE | andL | bitorE | bitorL | xorE | xorL
  | bitandE | bitandL | cmpE | cmpL | shiftE | shiftL | addE | addL
  | multE | multL | unary | postfixE | postfixL | callArgs (n : Nat) | primary
deriving Repr, DecidableEq

/-- The expression parser (`expr_eq` … `expr_primary`), transcribed
production by production. -/
def parseRun : Nat → PTag → PState → PState
  | 0, _, st => st
  | fuel + 1, tag, st =>
    match tag with
    | .eqE =>
      let st := parseRun fuel .orE st
      if st.cur = 61 ∨ (TOK_ADD_ASSIGN ≤ st.cur ∧ st.cur ≤ TOK_SHR_ASSIGN) then
        let op := st.cur
        let _lval := vtop0 st.core
        let st := pnext st
        let st := parseRun fuel .eqE st
        if op = 61 then
          -- simple assignment
          liftCore (fun c => gen_op c 61) st
        else
          -- compound assignment (simplified implementation)
          liftCore (fun c => gen_op c 61) st
      else st
    | .orE => parseRun fuel .orL (parseRun fuel .andE st)
    | .orL =>
      if st.cur = TOK_OR then
        let st := pnext st
        let st := parseRun fuel .andE st
        let st := liftCore (fun c => gen_op c TOK_OR) st
        parseRun fuel .orL st
      else st
    | .andE => parseRun fuel .andL (parseRun fuel .bitorE st)
    | .andL =>
      if st.cur = TOK_AND then
        let st := pnext st
        let st := parseRun fuel .bitorE st
        let st := liftCore (fun c => gen_op c TOK_AND) st
        parseRun fuel .andL st
      else st
    | .bitorE => parseRun fuel .bitorL (parseRun fuel .xorE st)
    | .bitorL =>
      if st.cur = 124 then
        let st := pnext st
        let st := parseRun fuel .xorE st
        let st := liftCore (fun c => gen_op c 124) st
        parseRun fuel .bitorL st
      else st
    | .xorE => parseRun fuel .xorL (parseRun fuel .bitandE st)
    | .xorL =>
      if st.cur = 94 then
        let st := pnext st
        let st := parseRun fuel .bitandE st
        let st := liftCore (fun c => gen_op c 94) st
        parseRun fuel .xorL st
      else st
    | .bitandE => parseRun fuel .bitandL (parseRun fuel .cmpE st)
    | .bitandL =>
      if st.cur = 38 then
        let st := pnext st
        let st := parseRun fuel .cmpE st
        let st := liftCore (fun c => gen_op c 38) st
        parseRun fuel .bitandL st
      else st
    | .cmpE => parseRun fuel .cmpL (parseRun fuel .shiftE st)
    | .cmpL =>
      if st.cur = TOK_EQ ∨ st.cur = TOK_NE ∨ st.cur = 60 ∨ st.cur = 62 ∨
          st.cur = TOK_LE ∨ st.cur = TOK_GE then
        let op := st.cur
        let st := pnext st
        let st := parseRun fuel .shiftE st
        let st := liftCore (fun c => gen_op c op) st
        parseRun fuel .cmpL st
      else st
    | .shiftE => parseRun fuel .shiftL (parseRun fuel .addE st)
    | .shiftL =>
      if st.cur = TOK_SHL ∨ st.cur = TOK_SHR then
        let op := st.cur
        let st := pnext st
        let st := parseRun fuel .addE st
        let st := liftCore (fun c => gen_op c op) st
        parseRun fuel .shiftL st
      else st
    | .addE => parseRun fuel .addL (parseRun fuel .multE st)
    | .addL =>
      if st.cur = 43 ∨ st.cur = 45 then
        let op := st.cur
        let st := pnext st
        let st := parseRun fuel .multE st
        let st := liftCore (fun c => gen_op c op) st
        parseRun fuel .addL st
      else st
    | .multE => parseRun fuel .multL (parseRun fuel .unary st)
    | .multL =>
      if st.cur = 42 ∨ st.cur = 47 ∨ st.cur = 37 then
        let op := st.cur
        let st := pnext st
        let st := parseRun fuel .unary st
        let st := liftCore (fun c => gen_op c op) st
        parseRun fuel .multL st
      else st
    | .unary =>
      if st.cur = 45 then
        -- negation: push 0, swap, subtract
        let st := pnext st
        let st := parseRun fuel .unary st
        let st := liftCore (fun c => vset c VT_INT VT_CONST 0) st
        let st := liftCore vswap st
        liftCore (fun c => gen_op c 45) st
      else if st.cur = 43 then
        parseRun fuel .unary (pnext st)
      else if st.cur = 33 then
        liftCore (fun c => gen_op c 33) (parseRun fuel .unary (pnext st))
      else if st.cur = 126 then
        liftCore (fun c => gen_op c 126) (parseRun fuel .unary (pnext st))
      else if st.cur = 42 then
        -- dereference: mark as lvalue
        liftCore vtop_or_lval (parseRun fuel .unary (pnext st))
      else if st.cur = 38 then
        -- address-of (not implemented in source)
        parseRun fuel .unary (pnext st)
      else if st.cur = TOK_INC ∨ st.cur = TOK_DEC then
        let op := st.cur
        let st := parseRun fuel .unary (pnext st)
        liftCore (fun c => gen_op c (if op = TOK_INC then 43 else 45)) st
      else if st.cur = TOK_SIZEOF then
        let st := pnext st
        if st.cur = 40 then
          let st := pnext st
          if TOK_INT ≤ st.cur ∧ st.cur ≤ TOK_DOUBLE then
            let (st, t) := parse_type fuel st
            let st := pskip st 41
            liftCore (fun c => vset c VT_INT VT_CONST (sizeof_of_type t)) st
          else
            let st := parseRun fuel .eqE st
            let st := pskip st 41
            let st := liftCore vpop st
            liftCore (fun c => vset c VT_INT VT_CONST 4) st
        else
          let st := parseRun fuel .unary st
          let st := liftCore vpop st
          liftCore (fun c => vset c VT_INT VT_CONST 4) st
      else if st.cur = 40 then
        let st := pnext st
        if TOK_VOID ≤ st.cur ∧ st.cur ≤ TOK_DOUBLE then
          -- cast
          let (st, t) := parse_type fuel st
          let (st, t) := parse_pointer fuel st (t.getD 0)
          let st := pskip st 41
          let st := parseRun fuel .unary st
          liftCore (fun c => gen_cast c t) st
        else
          -- parenthesized expression
          let st := parseRun fuel .eqE st
          pskip st 41
      else
        parseRun fuel .postfixE st
    | .postfixE => parseRun fuel .postfixL (parseRun fuel .primary st)
    | .postfixL =>
      if st.cur = 40 then
        parseRun fuel (.callArgs 0) (pnext st)
      else if st.cur = 91 then
        let st := pnext st
        let st := parseRun fuel .eqE st
        let st := pskip st 93
        let st := liftCore (fun c => gen_op c 43) st
        let st := liftCore vtop_or_lval st
        parseRun fuel .postfixL st
      else if st.cur = 46 then
        let st := pnext st
        let st := if st.cur ≠ TOK_IDENT then liftCore tcc_error st else st
        parseRun fuel .postfixL (pnext st)
      else if st.cur = TOK_ARROW then
        let st := pnext st
        let st := if st.cur ≠ TOK_IDENT then liftCore tcc_error st else st
        parseRun fuel .postfixL (pnext st)
      else if st.cur = TOK_INC ∨ st.cur = TOK_DEC then
        let op := st.cur
        let st := pnext st
        let st := liftCore (fun c => gen_op c (if op = TOK_INC then 43 else 45)) st
        parseRun fuel .postfixL st
      else st
    | .callArgs n =>
      if st.cur ≠ 41 then
        let st := parseRun fuel .eqE st
        let n := n + 1
        if st.cur = 44 then
          parseRun fuel (.callArgs n) (pnext st)
        else
          let st := pskip st 41
          let st := liftCore (fun c => gfunc_call c n) st
          parseRun fuel .postfixL st
      else
        let st := pskip st 41
        let st := liftCore (fun c => gfunc_call c n) st
        parseRun fuel .postfixL st
    | .primary =>
      if st.cur = TOK_NUM then
        let st := liftCore (fun c => vset c VT_INT VT_CONST st.curI) st
        pnext st
      else if st.cur = TOK_STR then
        let st := liftCore (primary_string st.curS) st
        pnext st
      else if st.cur = TOK_IDENT then
        let st := liftCore (primary_ident st.curS) st
        pnext st
      else
        pnext (liftCore tcc_error st)

/-- `expr` is `expr_eq`. -/
def expr (fuel : Nat) (st : PState) : PState := parseRun fuel .eqE st

/-! ## Invariants and quantification harnesses used by the theorems -/

/-- The code-offset invariant: `s->ind` equals the text section's
`data_size` whenever the text section exists. -/
def IndOk (s : Core) : Prop :=
  ∀ data, s.text = some data → s.ind = data.length

/-- `s'` differs from `s` only by appending bytes to the text section, with
`ind` advanced by exactly the appended count (as far as `text` and `ind` are
concerned; other fields are unconstrained). -/
def Appends (s s' : Core) : Prop :=
  (s.text = none → s'.text = none ∧ s'.ind = s.ind) ∧
  (∀ data, s.text = some data →
    ∃ extra, s'.text = some (data ++ extra) ∧ s'.ind = s.ind + extra.length)

/-- Head of a fix-up chain as the C `int` stored in `l->c` (`-1` = empty). -/
def headC : List Nat → Int
  | [] => -1
  | p :: _ => (p : Int)

/-- Well-formed fix-up chain: `slots` lists the 32-bit slot offsets newest
first; slots are in-bounds, non-overlapping and descending, and each slot
stores the (truncated) offset of the next one, the last storing `-1`. -/
def chainOK (data : List Nat) : List Nat → Prop
  | [] => True
  | p :: rest =>
      p + 4 ≤ data.length ∧ (∀ q ∈ rest, q + 4 ≤ p) ∧
      read32 data p = u32ofInt (headC rest) ∧ chainOK data rest

/-- Invariant tying a state, an as-yet-undefined label, and the ghost list
of its fix-up slots. -/
def LabelInv (s : Core) (l : Sym) (slots : List Nat) : Prop :=
  (∃ data, s.text = some data ∧ s.ind = data.length ∧ chainOK data slots) ∧
  l.r = 0 ∧ l.c = headC slots

/-- Code-generation events that may target one anonymous label: emitting an
unrelated byte, an unconditional `gjmp`, or a `gtst` (the parser pushes the
condition value `v` before calling `gtst`). -/
inductive GEvent where
  | emit (b : Nat)
  | jmp
  | tst (inv : Bool) (v : SValue)
deriving Repr, DecidableEq

/-- Run one event against the state and the tracked label. -/
def runEvent : Core × Sym → GEvent → Core × Sym
  | (s, l), .emit b => (g s b, l)
  | (s, l), .jmp => gjmp s l
  | (s, l), .tst inv v => gtst { s with vstack := v :: s.vstack } inv l

/-- Run a list of events; also collect the fix-up slot offsets written for
the label, newest first (each `gjmp`/`gtst` records `l->c` right after it
runs, which is its slot offset while the label is undefined). -/
def runEvents : Core × Sym → List GEvent → (Core × Sym) × List Nat
  | sl, [] => (sl, [])
  | sl, e :: rest =>
    let sl' := runEvent sl e
    let (final, slots) := runEvents sl' rest
    match e with
    | .emit _ => (final, slots)
    | .jmp => (final, slots ++ [(sl'.2.c).toNat])
    | .tst _ _ => (final, slots ++ [(sl'.2.c).toNat])

/-- Heap well-formedness for the symbol model: every `prev_tok` link points
to an earlier-allocated symbol (bucket heads recorded at push time). -/
def heapWF (heap : List Sym) : Prop :=
  ∀ i, (h : i < heap.length) → ∀ j, (heap.get ⟨i, h⟩).prevTok = some j → j < i

/-- Hash-table well-formedness: every bucket head is a valid heap index. -/
def tableWF (hash : List (Option Nat)) (n : Nat) : Prop :=
  ∀ e ∈ hash, ∀ j, e = some j → j < n

/-- Spine well-formedness: every spine entry is a valid heap index. -/
def spineWF (spine : List Nat) (n : Nat) : Prop := ∀ i ∈ spine, i < n

/-- Run a sequence of `sym_push2` calls (name, type, storage, constant). -/
def pushAll (s : Core) : List (Option String × Nat × Nat × Int) → Core
  | [] => s
  | (n, t, r, c) :: rest => pushAll (sym_push2 s n t r c).1 rest

/-- A full value stack, used as a witness input. -/
def coreFull : Core := { vstack := List.replicate 256 default }


/-- How one `save_reg r` pass may change a single value-stack entry: the type
is kept, and an entry not held in `r` is untouched. -/
def spillRel (r : Nat) (sv sv' : SValue) : Prop :=
  sv'.t = sv.t ∧ (sv.r &&& 0x00ff ≠ r → sv' = sv)

/-- Two constants on the value stack over an empty text section (a witness
input for the binary-operator encoders). -/
def coreTwo : Core :=
  { text := some [],
    vstack := [{ t := 0, r := VT_CONST, c := 7 }, { t := 0, r := VT_CONST, c := 5 }] }

/-- A single direct-callable function value on the stack: a constant entry
carrying a symbol reference to heap slot 0, whose code offset is 0x40
(a witness and counterexample input for the call emitter). -/
def coreC1 : Core :=
  { text := some [],
    vstack := [{ t := 0, r := VT_CONST, c := 0, sym := some 0 }],
    symHeap := [{ v := 1, name := some "f", t := 0, r := VT_CONST, c := 0x40,
                  prevTok := none }] }

/-!
# Theorems

Everything below is proof; no further embedding definitions.
-/

/-- **C6.** Pushing onto a full value stack (256 entries, via
`vset`/`vsetc`/`vpush`) and popping an empty value stack (via `vpop`) each
report a compile error (the error counter increments) and leave the value
stack — its height and every stored entry — unchanged; in this list-based
model no out-of-bounds entry exists to be written or read. -/
theorem C6_vstack_overflow_underflow (s s' : Core) (t r : Nat) (cv v : Int)
    (hfull : s.vstack.length = VSTACK_SIZE) (hempty : s'.vstack = []) :
    (vsetc s t r cv).nbErrors = s.nbErrors + 1 ∧ (vsetc s t r cv).vstack = s.vstack ∧
    (vset s t r v).nbErrors = s.nbErrors + 1 ∧ (vset s t r v).vstack = s.vstack ∧
    (vpush s).nbErrors = s.nbErrors + 1 ∧ (vpush s).vstack = s.vstack ∧
    (vpop s').nbErrors = s'.nbErrors + 1 ∧ (vpop s').vstack = s'.vstack := by
  have h256 : s.vstack.length ≥ VSTACK_SIZE := le_of_eq hfull.symm
  simp [vsetc, vset, vpush, vpop, tcc_error, h256, hempty]

/-- Witness for C6: a stack of 256 default entries overflows, the empty
stack underflows. -/
theorem C6_vstack_overflow_underflow_witness :
    coreFull.vstack.length = VSTACK_SIZE ∧ ({} : Core).vstack = [] ∧
    ((vsetc coreFull 0 0 0).nbErrors = coreFull.nbErrors + 1 ∧
     (vsetc coreFull 0 0 0).vstack = coreFull.vstack ∧
     (vset coreFull 0 0 0).nbErrors = coreFull.nbErrors + 1 ∧
     (vset coreFull 0 0 0).vstack = coreFull.vstack ∧
     (vpush coreFull).nbErrors = coreFull.nbErrors + 1 ∧
     (vpush coreFull).vstack = coreFull.vstack ∧
     (vpop {}).nbErrors = ({} : Core).nbErrors + 1 ∧
     (vpop {}).vstack = ({} : Core).vstack) :=
  ⟨by show (List.replicate 256 (default : SValue)).length = 256
      rw [List.length_replicate],
   rfl,
   C6_vstack_overflow_underflow coreFull {} 0 0 0 0
     (by show (List.replicate 256 (default : SValue)).length = 256
         rw [List.length_replicate]) rfl⟩

/-! ## Emission infrastructure: append-only text-section lemmas -/

theorem appends_refl (s : Core) : Appends s s :=
  ⟨fun h => ⟨h, rfl⟩, fun _ h => ⟨[], by simp [h]⟩⟩

theorem appends_trans {s t u : Core} (h1 : Appends s t) (h2 : Appends t u) :
    Appends s u := by
  constructor
  · intro h
    obtain ⟨ht1, hi1⟩ := h1.1 h
    obtain ⟨ht2, hi2⟩ := h2.1 ht1
    exact ⟨ht2, hi2.trans hi1⟩
  · intro data h
    obtain ⟨e1, ht1, hi1⟩ := h1.2 data h
    obtain ⟨e2, ht2, hi2⟩ := h2.2 _ ht1
    refine ⟨e1 ++ e2, by simp [ht2], ?_⟩
    rw [hi2, hi1]
    simp [Nat.add_assoc]

/-- A step that does not touch `text` or `ind` appends nothing. -/
theorem appends_untouched {s s' : Core} (ht : s'.text = s.text) (hi : s'.ind = s.ind) :
    Appends s s' := by
  refine ⟨fun h => ⟨ht.trans h, hi⟩, fun data h => ⟨[], ?_, by simp [hi]⟩⟩
  rw [ht, h]; simp

theorem appends_g (s : Core) (c : Nat) : Appends s (g s c) := by
  constructor
  · intro h; simp [g, h]
  · intro data h; exact ⟨[c % 256], by simp [g, h]⟩

theorem appends_tcc_error (s : Core) : Appends s (tcc_error s) :=
  appends_untouched rfl rfl

theorem appends_tcc_warning (s : Core) : Appends s (tcc_warning s) :=
  appends_untouched rfl rfl

theorem appends_vpop (s : Core) : Appends s (vpop s) := by
  refine appends_untouched ?_ ?_ <;> · unfold vpop; cases s.vstack <;> simp [tcc_error]

theorem appends_vswap (s : Core) : Appends s (vswap s) := by
  refine appends_untouched ?_ ?_ <;>
    · unfold vswap; rcases s.vstack with _ | ⟨a, _ | ⟨b, rest⟩⟩ <;> simp [tcc_error]

theorem appends_vsetc (s : Core) (t r : Nat) (vc : Int) : Appends s (vsetc s t r vc) := by
  refine appends_untouched ?_ ?_ <;> · unfold vsetc; split <;> simp [tcc_error]

theorem appends_vset (s : Core) (t r : Nat) (v : Int) : Appends s (vset s t r v) :=
  appends_vsetc s t r v

theorem appends_setVstack (s : Core) (vs : List SValue) :
    Appends s { s with vstack := vs } :=
  appends_untouched rfl rfl

theorem appends_gen_le32 (s : Core) (v : Nat) : Appends s (gen_le32 s v) := by
  unfold gen_le32
  exact appends_trans (appends_g _ _) (appends_trans (appends_g _ _)
    (appends_trans (appends_g _ _) (appends_g _ _)))

theorem appends_gen_le64 (s : Core) (v : Nat) : Appends s (gen_le64 s v) := by
  unfold gen_le64
  exact appends_trans (appends_gen_le32 _ _) (appends_gen_le32 _ _)

theorem appends_gen_rex (s : Core) (w r x b : Nat) : Appends s (gen_rex s w r x b) := by
  simp only [gen_rex]
  repeat' split
  all_goals first | exact appends_g _ _ | exact appends_refl _

theorem appends_gen_modrm (s : Core) (mod reg rm : Nat) :
    Appends s (gen_modrm s mod reg rm) :=
  appends_g _ _

theorem appends_gen_modrm_local (s : Core) (reg : Nat) (offset : Int) :
    Appends s (gen_modrm_local s reg offset) := by
  unfold gen_modrm_local
  split
  · exact appends_trans (appends_gen_modrm _ _ _ _) (appends_g _ _)
  · exact appends_trans (appends_gen_modrm _ _ _ _) (appends_gen_le32 _ _)

set_option maxHeartbeats 2000000 in
theorem appends_load (s : Core) (r : Nat) (sv : SValue) : Appends s (load s r sv) := by
  simp only [load]
  repeat' split
  all_goals
    repeat
      first
      | exact appends_refl _
      | refine appends_trans ?_ (appends_g _ _)
      | refine appends_trans ?_ (appends_gen_le32 _ _)
      | refine appends_trans ?_ (appends_gen_le64 _ _)
      | refine appends_trans ?_ (appends_gen_rex _ _ _ _ _)
      | refine appends_trans ?_ (appends_gen_modrm _ _ _ _)
      | refine appends_trans ?_ (appends_gen_modrm_local _ _ _)

set_option maxHeartbeats 2000000 in
theorem appends_store (s : Core) (r : Nat) (sv : SValue) : Appends s (store s r sv) := by
  simp only [store]
  repeat' split
  all_goals
    repeat
      first
      | exact appends_refl _
      | refine appends_trans ?_ (appends_g _ _)
      | refine appends_trans ?_ (appends_gen_le32 _ _)
      | refine appends_trans ?_ (appends_gen_rex _ _ _ _ _)
      | refine appends_trans ?_ (appends_gen_modrm _ _ _ _)
      | refine appends_trans ?_ (appends_gen_modrm_local _ _ _)

theorem appends_save_reg_one (r : Nat) (s : Core) (done : List SValue) (sv : SValue) :
    Appends s (save_reg_one r (s, done) sv).1 := by
  by_cases hc : sv.r &&& 0x00ff = r
  · have he : (save_reg_one r (s, done) sv).1 =
        store { s with loc := alignDown8 (s.loc - 8) } r
          { t := sv.t, r := VT_LOCAL ||| VT_LVAL, c := alignDown8 (s.loc - 8) } := by
      simp only [save_reg_one]
      rw [if_pos hc]
    rw [he]
    exact appends_trans
      (@appends_untouched s { s with loc := alignDown8 (s.loc - 8) } rfl rfl)
      (appends_store _ _ _)
  · have he : (save_reg_one r (s, done) sv).1 = s := by
      simp only [save_reg_one]
      rw [if_neg hc]
    rw [he]
    exact appends_refl _

theorem appends_save_reg_go (r : Nat) :
    ∀ (l : List SValue) (s : Core) (done : List SValue),
      Appends s (l.foldl (save_reg_one r) (s, done)).1 := by
  intro l
  induction l with
  | nil => intro s done; exact appends_refl _
  | cons sv rest ih =>
    intro s done
    rw [List.foldl_cons]
    have h1 := appends_save_reg_one r s done sv
    rcases hp : save_reg_one r (s, done) sv with ⟨s1, d1⟩
    rw [hp] at h1
    exact appends_trans h1 (ih s1 d1)

theorem appends_save_reg (s : Core) (r : Nat) : Appends s (save_reg s r) := by
  unfold save_reg
  rcases h : s.vstack.reverse.foldl (save_reg_one r) (s, []) with ⟨s1, st1⟩
  have h2 := appends_save_reg_go r s.vstack.reverse s []
  rw [h] at h2
  exact appends_trans h2 (appends_setVstack _ _)

set_option maxHeartbeats 2000000 in
theorem appends_gv (s : Core) (rc : Nat) : Appends s (gv s rc).1 := by
  simp only [gv]
  split
  · exact appends_tcc_error _
  · repeat' split
    all_goals
      first
      | exact appends_refl _
      | exact appends_trans (appends_save_reg _ _)
          (appends_trans (appends_load _ _ _) (appends_setVstack _ _))

theorem appends_gv2 (s : Core) (rc1 rc2 : Nat) : Appends s (gv2 s rc1 rc2) := by
  unfold gv2
  exact appends_trans (appends_gv _ _) (appends_trans (appends_vswap _)
    (appends_trans (appends_gv _ _) (appends_vswap _)))

theorem appends_setLoc (s : Core) (l : Int) : Appends s { s with loc := l } :=
  appends_untouched rfl rfl

theorem appends_vtop_set_r (s : Core) (r : Nat) : Appends s (vtop_set_r s r) :=
  appends_untouched rfl rfl

theorem appends_vtop_set_rt (s : Core) (r t : Nat) : Appends s (vtop_set_rt s r t) :=
  appends_untouched rfl rfl

theorem appends_vtop_set_t (s : Core) (t : Nat) : Appends s (vtop_set_t s t) :=
  appends_untouched rfl rfl

theorem appends_gen_opi_add (s : Core) : Appends s (gen_opi_add s) := by
  unfold gen_opi_add
  repeat
    first
    | exact appends_gv2 _ _ _
    | refine appends_trans ?_ (appends_vpop _)
    | refine appends_trans ?_ (appends_g _ _)
    | refine appends_trans ?_ (appends_gen_modrm _ _ _ _)
    | refine appends_trans ?_ (appends_gen_rex _ _ _ _ _)

theorem appends_gen_opi_sub (s : Core) : Appends s (gen_opi_sub s) := by
  unfold gen_opi_sub
  repeat
    first
    | exact appends_gv2 _ _ _
    | refine appends_trans ?_ (appends_vpop _)
    | refine appends_trans ?_ (appends_g _ _)
    | refine appends_trans ?_ (appends_gen_modrm _ _ _ _)
    | refine appends_trans ?_ (appends_gen_rex _ _ _ _ _)

theorem appends_gen_opi_mul (s : Core) : Appends s (gen_opi_mul s) := by
  unfold gen_opi_mul
  repeat
    first
    | exact appends_gv2 _ _ _
    | refine appends_trans ?_ (appends_vtop_set_r _ _)
    | refine appends_trans ?_ (appends_vpop _)
    | refine appends_trans ?_ (appends_g _ _)
    | refine appends_trans ?_ (appends_gen_modrm _ _ _ _)
    | refine appends_trans ?_ (appends_gen_rex _ _ _ _ _)

theorem appends_gen_opi_divmod (s : Core) (op : Nat) : Appends s (gen_opi_divmod s op) := by
  have h0 : Appends s
      (if (vtop0 (gv2 s RC_RAX RC_INT)).r &&& 0xff = REG_RDX then
        gen_modrm (g (gen_rex (gv2 s RC_RAX RC_INT) 1 REG_RCX 0 REG_RDX) 0x89) 3 REG_RDX REG_RCX
      else gv2 s RC_RAX RC_INT) := by
    split
    · exact appends_trans (appends_gv2 _ _ _) (appends_trans (appends_gen_rex _ _ _ _ _)
        (appends_trans (appends_g _ _) (appends_gen_modrm _ _ _ _)))
    · exact appends_gv2 _ _ _
  unfold gen_opi_divmod
  repeat
    first
    | exact h0
    | refine appends_trans ?_ (appends_vtop_set_r _ _)
    | refine appends_trans ?_ (appends_vpop _)
    | refine appends_trans ?_ (appends_g _ _)
    | refine appends_trans ?_ (appends_gen_modrm _ _ _ _)
    | refine appends_trans ?_ (appends_gen_rex _ _ _ _ _)

theorem appends_gen_opi_and (s : Core) : Appends s (gen_opi_and s) := by
  unfold gen_opi_and
  repeat
    first
    | exact appends_gv2 _ _ _
    | refine appends_trans ?_ (appends_vpop _)
    | refine appends_trans ?_ (appends_g _ _)
    | refine appends_trans ?_ (appends_gen_modrm _ _ _ _)
    | refine appends_trans ?_ (appends_gen_rex _ _ _ _ _)

theorem appends_gen_opi_or (s : Core) : Appends s (gen_opi_or s) := by
  unfold gen_opi_or
  repeat
    first
    | exact appends_gv2 _ _ _
    | refine appends_trans ?_ (appends_vpop _)
    | refine appends_trans ?_ (appends_g _ _)
    | refine appends_trans ?_ (appends_gen_modrm _ _ _ _)
    | refine appends_trans ?_ (appends_gen_rex _ _ _ _ _)

theorem appends_gen_opi_xor (s : Core) : Appends s (gen_opi_xor s) := by
  unfold gen_opi_xor
  repeat
    first
    | exact appends_gv2 _ _ _
    | refine appends_trans ?_ (appends_vpop _)
    | refine appends_trans ?_ (appends_g _ _)
    | refine appends_trans ?_ (appends_gen_modrm _ _ _ _)
    | refine appends_trans ?_ (appends_gen_rex _ _ _ _ _)

theorem appends_gen_opi_shl (s : Core) : Appends s (gen_opi_shl s) := by
  unfold gen_opi_shl
  repeat
    first
    | exact appends_gv2 _ _ _
    | refine appends_trans ?_ (appends_vpop _)
    | refine appends_trans ?_ (appends_g _ _)
    | refine appends_trans ?_ (appends_gen_modrm _ _ _ _)
    | refine appends_trans ?_ (appends_gen_rex _ _ _ _ _)

theorem appends_gen_opi_shr (s : Core) : Appends s (gen_opi_shr s) := by
  unfold gen_opi_shr
  repeat
    first
    | exact appends_gv2 _ _ _
    | refine appends_trans ?_ (appends_vpop _)
    | refine appends_trans ?_ (appends_g _ _)
    | refine appends_trans ?_ (appends_gen_modrm _ _ _ _)
    | refine appends_trans ?_ (appends_gen_rex _ _ _ _ _)

theorem appends_gen_opi_rel (s : Core) (op : Nat) : Appends s (gen_opi_rel s op) := by
  unfold gen_opi_rel
  repeat
    first
    | exact appends_gv2 _ _ _
    | refine appends_trans ?_ (appends_vtop_set_rt _ _ _)
    | refine appends_trans ?_ (appends_vpop _)
    | refine appends_trans ?_ (appends_g _ _)
    | refine appends_trans ?_ (appends_gen_modrm _ _ _ _)
    | refine appends_trans ?_ (appends_gen_rex _ _ _ _ _)

theorem appends_gen_opi_bnot (s : Core) : Appends s (gen_opi_bnot s) := by
  unfold gen_opi_bnot
  repeat
    first
    | exact appends_gv _ _
    | refine appends_trans ?_ (appends_g _ _)
    | refine appends_trans ?_ (appends_gen_modrm _ _ _ _)
    | refine appends_trans ?_ (appends_gen_rex _ _ _ _ _)

theorem appends_gen_opi_lnot (s : Core) : Appends s (gen_opi_lnot s) := by
  unfold gen_opi_lnot
  repeat
    first
    | exact appends_gv _ _
    | refine appends_trans ?_ (appends_vtop_set_r _ _)
    | refine appends_trans ?_ (appends_g _ _)
    | refine appends_trans ?_ (appends_gen_modrm _ _ _ _)
    | refine appends_trans ?_ (appends_gen_rex _ _ _ _ _)

theorem appends_gen_opi (s : Core) (op : Nat) : Appends s (gen_opi s op) := by
  have e : gen_opi s op =
      (if s.vstack.length < 2 ∧ op ≠ 33 ∧ op ≠ 126 then
        tcc_error s
      else if op = 43 then gen_opi_add s
      else if op = 45 then gen_opi_sub s
      else if op = 42 then gen_opi_mul s
      else if op = 47 ∨ op = 37 then gen_opi_divmod s op
      else if op = 38 then gen_opi_and s
      else if op = 124 then gen_opi_or s
      else if op = 94 then gen_opi_xor s
      else if op = TOK_SHL then gen_opi_shl s
      else if op = TOK_SHR then gen_opi_shr s
      else if op = TOK_EQ ∨ op = TOK_NE ∨ op = 60 ∨ op = 62 ∨ op = TOK_LE ∨ op = TOK_GE then
        gen_opi_rel s op
      else if op = 126 then gen_opi_bnot s
      else if op = 33 then gen_opi_lnot s
      else s) := rfl
  rw [e]
  by_cases h1 : s.vstack.length < 2 ∧ op ≠ 33 ∧ op ≠ 126
  · rw [if_pos h1]; exact appends_tcc_error _
  · rw [if_neg h1]
    by_cases h2 : op = 43
    · rw [if_pos h2]; exact appends_gen_opi_add _
    · rw [if_neg h2]
      by_cases h3 : op = 45
      · rw [if_pos h3]; exact appends_gen_opi_sub _
      · rw [if_neg h3]
        by_cases h4 : op = 42
        · rw [if_pos h4]; exact appends_gen_opi_mul _
        · rw [if_neg h4]
          by_cases h5 : op = 47 ∨ op = 37
          · rw [if_pos h5]; exact appends_gen_opi_divmod _ _
          · rw [if_neg h5]
            by_cases h6 : op = 38
            · rw [if_pos h6]; exact appends_gen_opi_and _
            · rw [if_neg h6]
              by_cases h7 : op = 124
              · rw [if_pos h7]; exact appends_gen_opi_or _
              · rw [if_neg h7]
                by_cases h8 : op = 94
                · rw [if_pos h8]; exact appends_gen_opi_xor _
                · rw [if_neg h8]
                  by_cases h9 : op = TOK_SHL
                  · rw [if_pos h9]; exact appends_gen_opi_shl _
                  · rw [if_neg h9]
                    by_cases h10 : op = TOK_SHR
                    · rw [if_pos h10]; exact appends_gen_opi_shr _
                    · rw [if_neg h10]
                      by_cases h11 : op = TOK_EQ ∨ op = TOK_NE ∨ op = 60 ∨ op = 62 ∨ op = TOK_LE ∨ op = TOK_GE
                      · rw [if_pos h11]; exact appends_gen_opi_rel _ _
                      · rw [if_neg h11]
                        by_cases h12 : op = 126
                        · rw [if_pos h12]; exact appends_gen_opi_bnot _
                        · rw [if_neg h12]
                          by_cases h13 : op = 33
                          · rw [if_pos h13]; exact appends_gen_opi_lnot _
                          · rw [if_neg h13]
                            exact appends_refl _

theorem appends_gen_op (s : Core) (op : Nat) : Appends s (gen_op s op) := by
  have e : gen_op s op =
      (if s.vstack = [] then
        tcc_error s
      else if op = 61 then
        if s.vstack.length < 2 then
          tcc_error s
        else
          let r := (gv s RC_INT).2
          let s := (gv s RC_INT).1
          let s := vpop s
          let s := store s r (vtop0 s)
          vtop_set_r s r
      else if op = 43 ∨ op = 45 ∨ op = 42 ∨ op = 47 ∨ op = 37 ∨ op = 38 ∨ op = 124 ∨
          op = 94 ∨ op = TOK_SHL ∨ op = TOK_SHR then
        gen_opi s op
      else if op = TOK_EQ ∨ op = TOK_NE ∨ op = 60 ∨ op = 62 ∨ op = TOK_LE ∨ op = TOK_GE then
        gen_opi s op
      else if op = 33 then
        gen_opi ((gv s RC_INT).1) 33
      else if op = 126 then
        gen_opi ((gv s RC_INT).1) 126
      else tcc_warning s) := rfl
  rw [e]
  by_cases h1 : s.vstack = []
  · rw [if_pos h1]; exact appends_tcc_error _
  · rw [if_neg h1]
    by_cases h2 : op = 61
    · rw [if_pos h2]
      by_cases hlen : s.vstack.length < 2
      · rw [if_pos hlen]; exact appends_tcc_error _
      · rw [if_neg hlen]
        exact appends_trans (appends_trans (appends_trans (appends_gv _ _)
          (appends_vpop _)) (appends_store _ _ _)) (appends_vtop_set_r _ _)
    · rw [if_neg h2]
      by_cases h3 : op = 43 ∨ op = 45 ∨ op = 42 ∨ op = 47 ∨ op = 37 ∨ op = 38 ∨ op = 124 ∨ op = 94 ∨ op = TOK_SHL ∨ op = TOK_SHR
      · rw [if_pos h3]; exact appends_gen_opi _ _
      · rw [if_neg h3]
        by_cases h4 : op = TOK_EQ ∨ op = TOK_NE ∨ op = 60 ∨ op = 62 ∨ op = TOK_LE ∨ op = TOK_GE
        · rw [if_pos h4]; exact appends_gen_opi _ _
        · rw [if_neg h4]
          by_cases h5 : op = 33
          · rw [if_pos h5]; exact appends_trans (appends_gv _ _) (appends_gen_opi _ _)
          · rw [if_neg h5]
            by_cases h6 : op = 126
            · rw [if_pos h6]; exact appends_trans (appends_gv _ _) (appends_gen_opi _ _)
            · rw [if_neg h6]
              exact appends_tcc_warning _


theorem appends_gen_cast (s : Core) (t : Nat) : Appends s (gen_cast s t) := by
  have e : gen_cast s t =
      (if (vtop0 s).t &&& VT_BTYPE = t &&& VT_BTYPE then vtop_set_t s t
       else if VT_FLOAT ≤ t &&& VT_BTYPE ∧ (vtop0 s).t &&& VT_BTYPE < VT_FLOAT then
         gen_cvt_itof s t
       else if VT_FLOAT ≤ (vtop0 s).t &&& VT_BTYPE ∧ t &&& VT_BTYPE < VT_FLOAT then
         gen_cvt_ftoi s t
       else vtop_set_t s t) := rfl
  rw [e]
  by_cases c1 : (vtop0 s).t &&& VT_BTYPE = t &&& VT_BTYPE
  · rw [if_pos c1]; exact appends_vtop_set_t _ _
  · rw [if_neg c1]
    by_cases c2 : VT_FLOAT ≤ t &&& VT_BTYPE ∧ (vtop0 s).t &&& VT_BTYPE < VT_FLOAT
    · rw [if_pos c2]; exact appends_tcc_warning _
    · rw [if_neg c2]
      by_cases c3 : VT_FLOAT ≤ (vtop0 s).t &&& VT_BTYPE ∧ t &&& VT_BTYPE < VT_FLOAT
      · rw [if_pos c3]; exact appends_tcc_warning _
      · rw [if_neg c3]; exact appends_vtop_set_t _ _

theorem appends_gfunc_prolog (s : Core) (t : Nat) : Appends s (gfunc_prolog s t) := by
  unfold gfunc_prolog
  refine appends_trans ?_ (appends_setLoc _ _)
  repeat
    first
    | exact appends_refl _
    | refine appends_trans ?_ (appends_g _ _)
    | refine appends_trans ?_ (appends_gen_modrm _ _ _ _)
    | refine appends_trans ?_ (appends_gen_rex _ _ _ _ _)

theorem appends_gfunc_epilog (s : Core) : Appends s (gfunc_epilog s) := by
  unfold gfunc_epilog
  repeat
    first
    | exact appends_refl _
    | refine appends_trans ?_ (appends_g _ _)
    | refine appends_trans ?_ (appends_gen_modrm _ _ _ _)
    | refine appends_trans ?_ (appends_gen_rex _ _ _ _ _)

theorem appends_gjmp (s : Core) (l : Sym) : Appends s (gjmp s l).1 := by
  unfold gjmp
  split
  all_goals
    repeat
      first
      | exact appends_refl _
      | refine appends_trans ?_ (appends_gen_le32 _ _)
      | refine appends_trans ?_ (appends_g _ _)

set_option maxHeartbeats 3000000 in
theorem appends_gtst (s : Core) (inv : Bool) (l : Sym) : Appends s (gtst s inv l).1 := by
  have e : gtst s inv l =
      (let v0 := (vtop0 s).r &&& 0xff
       let v := if v0 ≥ NB_REGS then (gv s RC_INT).2 else v0
       let s1 := if v0 ≥ NB_REGS then (gv s RC_INT).1 else s
       let s2 := vpop s1
       let s3 := gen_rex s2 1 v 0 v
       let s4 := g s3 0x85
       let s5 := gen_modrm s4 3 v v
       let s6 := g s5 0x0f
       let s7 := g s6 (if inv then 0x84 else 0x85)
       if l.r = 1 then
         (gen_le32 s7 (u32ofInt (l.c - ((s7.ind : Int) + 4))), l)
       else
         (gen_le32 s7 (u32ofInt l.c),
          { l with c := ((gen_le32 s7 (u32ofInt l.c)).ind : Int) - 4 })) := rfl
  have h1 : Appends s (if (vtop0 s).r &&& 0xff ≥ NB_REGS then (gv s RC_INT).1 else s) := by
    split
    · exact appends_gv _ _
    · exact appends_refl _
  rw [e]
  simp only []
  by_cases hl : l.r = 1
  · rw [if_pos hl]
    repeat
      first
      | exact h1
      | refine appends_trans ?_ (appends_gen_le32 _ _)
      | refine appends_trans ?_ (appends_g _ _)
      | refine appends_trans ?_ (appends_gen_modrm _ _ _ _)
      | refine appends_trans ?_ (appends_gen_rex _ _ _ _ _)
      | refine appends_trans ?_ (appends_vpop _)
  · rw [if_neg hl]
    repeat
      first
      | exact h1
      | refine appends_trans ?_ (appends_gen_le32 _ _)
      | refine appends_trans ?_ (appends_g _ _)
      | refine appends_trans ?_ (appends_gen_modrm _ _ _ _)
      | refine appends_trans ?_ (appends_gen_rex _ _ _ _ _)
      | refine appends_trans ?_ (appends_vpop _)

set_option maxHeartbeats 2000000 in
theorem appends_gfunc_call_args : ∀ (n : Nat) (s : Core), Appends s (gfunc_call_args s n) := by
  intro n
  induction n with
  | zero => intro s; exact appends_refl _
  | succ m ih =>
    intro s
    have e : gfunc_call_args s (m + 1) =
        gfunc_call_args
          (if m ≥ 4 then
            let s := (gv s RC_INT).1
            let argR := (vtop0 s).r &&& 0xff
            let s := if argR > 7 then g s 0x41 else s
            let s := g s (0x50 + argR % 8)
            vpop s
          else
            let rc := if m = 0 then RC_RCX else if m = 1 then RC_RDX else RC_INT
            let r := if m = 0 then REG_RCX else if m = 1 then REG_RDX
                     else if m = 2 then REG_R8 else REG_R9
            let s := (gv s rc).1
            let s :=
              if (vtop0 s).r &&& 0xff ≠ r then
                let src := (vtop0 s).r &&& 0xff
                let s := gen_rex s 1 r 0 src
                let s := g s 0x89
                gen_modrm s 3 src r
              else s
            vpop s) m := rfl
    rw [e]
    refine appends_trans ?_ (ih _)
    by_cases h4 : m ≥ 4
    · rw [if_pos h4]
      simp only []
      refine appends_trans ?_ (appends_vpop _)
      refine appends_trans ?_ (appends_g _ _)
      repeat' split
      all_goals
        repeat
          first
          | exact appends_gv _ _
          | refine appends_trans ?_ (appends_g _ _)
    · rw [if_neg h4]
      simp only []
      refine appends_trans ?_ (appends_vpop _)
      repeat' split
      all_goals
        repeat
          first
          | exact appends_gv _ _
          | refine appends_trans ?_ (appends_gen_modrm _ _ _ _)
          | refine appends_trans ?_ (appends_g _ _)
          | refine appends_trans ?_ (appends_gen_rex _ _ _ _ _)

set_option maxHeartbeats 2000000 in
theorem appends_gfunc_call (s : Core) (n : Nat) : Appends s (gfunc_call s n) := by
  have e : gfunc_call s n =
      (let s := gfunc_call_args s n
       let s :=
         if s.vstack ≠ [] ∧ (vtop0 s).sym ≠ none then
           let s := g s 0xe8
           let s := gen_le32 s 0
           vpop s
         else
           let s := (gv s RC_INT).1
           let r := (vtop0 s).r &&& 0xff
           let s := if r > 7 then g s 0x41 else s
           let s := g s 0xff
           let s := gen_modrm s 3 2 (r % 8)
           vpop s
       vset s VT_INT REG_RAX 0) := rfl
  rw [e]
  simp only []
  refine appends_trans ?_ (appends_vset _ _ _ _)
  split
  · refine appends_trans ?_ (appends_vpop _)
    refine appends_trans ?_ (appends_gen_le32 _ _)
    refine appends_trans ?_ (appends_g _ _)
    exact appends_gfunc_call_args n s
  · refine appends_trans ?_ (appends_vpop _)
    refine appends_trans ?_ (appends_gen_modrm _ _ _ _)
    refine appends_trans ?_ (appends_g _ _)
    split
    · refine appends_trans ?_ (appends_g _ _)
      exact appends_trans (appends_gfunc_call_args n s) (appends_gv _ _)
    · exact appends_trans (appends_gfunc_call_args n s) (appends_gv _ _)

/-! ## C9: `ind` always equals the text section size -/

theorem indOk_of_appends {s s' : Core} (h : IndOk s) (ha : Appends s s') : IndOk s' := by
  intro data hd
  cases hs : s.text with
  | none =>
    have := (ha.1 hs).1
    rw [this] at hd
    cases hd
  | some d =>
    obtain ⟨extra, ht, hi⟩ := ha.2 d hs
    rw [ht] at hd
    cases hd
    rw [hi, h d hs, List.length_append]

/-- **C9.** After `gen_init`, and after every byte-emitting operation built
on `g` (the little-endian emitters, the REX/ModRM helpers, `load`, `store`,
register spilling and materialization, `gen_opi`/`gen_op`, the function
prologue, epilogue and call, and both jump emitters), the compiler state
satisfies `ind = text_section.data_size`: the code offset and the text
size name the same byte index. -/
theorem C9_ind_equals_text_size (s : Core) (hs : IndOk s)
    (c v w r x b mod reg rm rc rc2 op t n : Nat) (off : Int) (sv : SValue)
    (l : Sym) (inv : Bool) :
    IndOk (gen_init s) ∧ IndOk (g s c) ∧ IndOk (gen_le32 s v) ∧
    IndOk (gen_le64 s v) ∧ IndOk (gen_rex s w r x b) ∧
    IndOk (gen_modrm s mod reg rm) ∧ IndOk (gen_modrm_local s reg off) ∧
    IndOk (load s r sv) ∧ IndOk (store s r sv) ∧ IndOk (save_reg s r) ∧
    IndOk (gv s rc).1 ∧ IndOk (gv2 s rc rc2) ∧ IndOk (gen_opi s op) ∧
    IndOk (gen_op s op) ∧ IndOk (gfunc_prolog s t) ∧ IndOk (gfunc_epilog s) ∧
    IndOk (gfunc_call s n) ∧ IndOk (gjmp s l).1 ∧ IndOk (gtst s inv l).1 := by
  refine ⟨?_, ?_, ?_, ?_, ?_, ?_, ?_, ?_, ?_, ?_, ?_, ?_, ?_, ?_, ?_, ?_, ?_, ?_, ?_⟩
  · intro data hd
    simp only [gen_init] at hd ⊢
    cases hd
    rfl
  · exact indOk_of_appends hs (appends_g s c)
  · exact indOk_of_appends hs (appends_gen_le32 s v)
  · exact indOk_of_appends hs (appends_gen_le64 s v)
  · exact indOk_of_appends hs (appends_gen_rex s w r x b)
  · exact indOk_of_appends hs (appends_gen_modrm s mod reg rm)
  · exact indOk_of_appends hs (appends_gen_modrm_local s reg off)
  · exact indOk_of_appends hs (appends_load s r sv)
  · exact indOk_of_appends hs (appends_store s r sv)
  · exact indOk_of_appends hs (appends_save_reg s r)
  · exact indOk_of_appends hs (appends_gv s rc)
  · exact indOk_of_appends hs (appends_gv2 s rc rc2)
  · exact indOk_of_appends hs (appends_gen_opi s op)
  · exact indOk_of_appends hs (appends_gen_op s op)
  · exact indOk_of_appends hs (appends_gfunc_prolog s t)
  · exact indOk_of_appends hs (appends_gfunc_epilog s)
  · exact indOk_of_appends hs (appends_gfunc_call s n)
  · exact indOk_of_appends hs (appends_gjmp s l)
  · exact indOk_of_appends hs (appends_gtst s inv l)

/-- Witness for C9 at the freshly initialized state and concrete arguments. -/
theorem C9_ind_equals_text_size_witness :
    IndOk (gen_init {}) ∧
    (IndOk (gen_init (gen_init {})) ∧ IndOk (g (gen_init {}) 0x90) ∧
     IndOk (gen_le32 (gen_init {}) 5) ∧ IndOk (gen_le64 (gen_init {}) 5) ∧
     IndOk (gen_rex (gen_init {}) 1 0 0 0) ∧ IndOk (gen_modrm (gen_init {}) 3 0 0) ∧
     IndOk (gen_modrm_local (gen_init {}) 0 8) ∧
     IndOk (load (gen_init {}) 0 default) ∧ IndOk (store (gen_init {}) 0 default) ∧
     IndOk (save_reg (gen_init {}) 0) ∧ IndOk (gv (gen_init {}) RC_INT).1 ∧
     IndOk (gv2 (gen_init {}) RC_INT RC_INT) ∧ IndOk (gen_opi (gen_init {}) 43) ∧
     IndOk (gen_op (gen_init {}) 43) ∧ IndOk (gfunc_prolog (gen_init {}) 0) ∧
     IndOk (gfunc_epilog (gen_init {})) ∧ IndOk (gfunc_call (gen_init {}) 0) ∧
     IndOk (gjmp (gen_init {}) (gind {})).1 ∧ IndOk (gtst (gen_init {}) true (gind {})).1) :=
  ⟨fun data hd => by cases hd; rfl,
   C9_ind_equals_text_size (gen_init {}) (fun data hd => by cases hd; rfl)
     0x90 5 1 0 0 0 3 0 0 RC_INT RC_INT 43 0 0 8 default (gind {}) true⟩

/-! ## Value-stack structure lemmas: save_reg, gv, gv2 -/

theorem spillRel_refl (r : Nat) : ∀ l : List SValue, List.Forall₂ (spillRel r) l l
  | [] => List.Forall₂.nil
  | _ :: xs => List.Forall₂.cons ⟨rfl, fun _ => rfl⟩ (spillRel_refl r xs)

theorem spillRel_tmap {r : Nat} : ∀ {a b : List SValue},
    List.Forall₂ (spillRel r) a b →
      b.map (fun v => v.t) = a.map (fun v => v.t)
  | _, _, List.Forall₂.nil => rfl
  | _, _, List.Forall₂.cons h hrest => by
      simp [List.map_cons, h.1, spillRel_tmap hrest]

theorem save_fold_spec (r : Nat) :
    ∀ (l : List SValue) (s : Core) (done : List SValue),
      ∃ l', (l.foldl (save_reg_one r) (s, done)).2 = done ++ l' ∧
        List.Forall₂ (spillRel r) l l'
  | [], _, _ => ⟨[], by simp, List.Forall₂.nil⟩
  | sv :: rest, s, done => by
    rw [List.foldl_cons]
    by_cases hc : sv.r &&& 0x00ff = r
    · have e : save_reg_one r (s, done) sv =
          (store { s with loc := alignDown8 (s.loc - 8) } r
             { t := sv.t, r := VT_LOCAL ||| VT_LVAL, c := alignDown8 (s.loc - 8) },
           done ++ [{ sv with r := VT_LOCAL ||| VT_LVAL, c := alignDown8 (s.loc - 8) }]) := by
        simp [save_reg_one, hc]
      rw [e]
      obtain ⟨l', h1, hrel⟩ := save_fold_spec r rest
        (store { s with loc := alignDown8 (s.loc - 8) } r
           { t := sv.t, r := VT_LOCAL ||| VT_LVAL, c := alignDown8 (s.loc - 8) })
        (done ++ [{ sv with r := VT_LOCAL ||| VT_LVAL, c := alignDown8 (s.loc - 8) }])
      exact ⟨{ sv with r := VT_LOCAL ||| VT_LVAL, c := alignDown8 (s.loc - 8) } :: l',
        by rw [h1]; simp,
        List.Forall₂.cons ⟨rfl, fun hne => absurd hc hne⟩ hrel⟩
    · have e : save_reg_one r (s, done) sv = (s, done ++ [sv]) := by
        simp [save_reg_one, hc]
      rw [e]
      obtain ⟨l', h1, hrel⟩ := save_fold_spec r rest s (done ++ [sv])
      exact ⟨sv :: l', by rw [h1]; simp,
        List.Forall₂.cons ⟨rfl, fun _ => rfl⟩ hrel⟩

theorem save_reg_vstack (s : Core) (r : Nat) :
    List.Forall₂ (spillRel r) s.vstack (save_reg s r).vstack := by
  obtain ⟨l', h1, hrel⟩ := save_fold_spec r s.vstack.reverse s []
  have e : (save_reg s r).vstack =
      ((s.vstack.reverse.foldl (save_reg_one r) (s, [])).2).reverse := rfl
  rw [e, h1]
  simp only [List.nil_append]
  have hrel2 : List.Forall₂ (spillRel r) s.vstack.reverse l'.reverse.reverse := by
    rw [List.reverse_reverse]; exact hrel
  exact List.forall₂_reverse_iff.mp hrel2

theorem vstack_g (s : Core) (c : Nat) : (g s c).vstack = s.vstack := by
  cases h : s.text <;> simp [g, h]

theorem vstack_gen_le32 (s : Core) (v : Nat) : (gen_le32 s v).vstack = s.vstack := by
  simp [gen_le32, vstack_g]

theorem vstack_gen_le64 (s : Core) (v : Nat) : (gen_le64 s v).vstack = s.vstack := by
  simp [gen_le64, vstack_gen_le32]

theorem vstack_gen_rex (s : Core) (w r x b : Nat) :
    (gen_rex s w r x b).vstack = s.vstack := by
  unfold gen_rex
  repeat' split
  all_goals simp [vstack_g]

theorem vstack_gen_modrm (s : Core) (m reg rm : Nat) :
    (gen_modrm s m reg rm).vstack = s.vstack := by
  simp [gen_modrm, vstack_g]

theorem vstack_gen_modrm_local (s : Core) (reg : Nat) (offset : Int) :
    (gen_modrm_local s reg offset).vstack = s.vstack := by
  unfold gen_modrm_local; split <;> simp [vstack_gen_modrm, vstack_g, vstack_gen_le32]

theorem vstack_load (s : Core) (r : Nat) (sv : SValue) :
    (load s r sv).vstack = s.vstack := by
  simp only [load]
  repeat' split
  all_goals simp [vstack_g, vstack_gen_rex, vstack_gen_modrm, vstack_gen_modrm_local,
    vstack_gen_le32, vstack_gen_le64]

theorem vstack_store (s : Core) (r : Nat) (sv : SValue) :
    (store s r sv).vstack = s.vstack := by
  simp only [store]
  repeat' split
  all_goals simp [vstack_g, vstack_gen_rex, vstack_gen_modrm, vstack_gen_modrm_local,
    vstack_gen_le32, vstack_gen_le64]

theorem text_g (s : Core) (c : Nat) :
    (g s c).text = s.text.map (fun d => d ++ [c % 256]) := by
  cases h : s.text <;> simp [g, h]

theorem text_vpop (s : Core) : (vpop s).text = s.text := by
  cases h : s.vstack <;> simp [vpop, tcc_error, h]

theorem text_vtop_set_rt (s : Core) (r t : Nat) : (vtop_set_rt s r t).text = s.text := rfl

theorem vtop0_vpop (s : Core) (h : s.vstack ≠ []) : vtop0 (vpop s) = vtop1 s := by
  obtain ⟨a, l, hv⟩ := List.exists_cons_of_ne_nil h
  simp [vpop, vtop0, vtop1, hv]

theorem vstack_vpop (s : Core) (h : s.vstack ≠ []) :
    (vpop s).vstack = s.vstack.tail := by
  obtain ⟨a, l, hv⟩ := List.exists_cons_of_ne_nil h
  simp [vpop, hv]

theorem gv_rcx_spec (s : Core) (h : s.vstack ≠ []) :
    (vtop0 (gv s RC_RCX).1).r &&& 0x00ff = REG_RCX ∧
    (vtop0 (gv s RC_RCX).1).t = (vtop0 s).t ∧
    List.Forall₂ (spillRel REG_RCX) s.vstack.tail ((gv s RC_RCX).1).vstack.tail ∧
    ((gv s RC_RCX).1).vstack.length = s.vstack.length := by
  have h84 : (RC_RCX &&& RC_RAX : Nat) = 0 := by decide
  have h88 : (RC_RCX &&& RC_RCX : Nat) = 8 := by decide
  have h816 : (RC_RCX &&& RC_RDX : Nat) = 0 := by decide
  by_cases hm : (vtop0 s).r &&& 0x00ff < NB_REGS ∧ (vtop0 s).r &&& 0x00ff = REG_RCX
  · have e : gv s RC_RCX = (s, (vtop0 s).r &&& 0x00ff) := by
      rw [gv, if_neg h]
      simp [h84, h88, h816, hm.1, hm.2]
      intro hc
      exact absurd hc (by decide)
    rw [e]
    exact ⟨hm.2, rfl, spillRel_refl _ _, rfl⟩
  · have e : gv s RC_RCX =
        (vtop_set_r (load (save_reg s REG_RCX) REG_RCX (vtop0 (save_reg s REG_RCX)))
          REG_RCX, REG_RCX) := by
      rw [gv, if_neg h]
      by_cases hlt : (vtop0 s).r &&& 0x00ff < NB_REGS
      · have hne : (vtop0 s).r &&& 0x00ff ≠ REG_RCX := fun hh => hm ⟨hlt, hh⟩
        simp [h84, h88, h816, hlt, hne]
      · simp [h84, h88, h816, hlt]
    rw [e]
    generalize vtop0 (save_reg s REG_RCX) = sv0
    obtain ⟨a, as, hv⟩ := List.exists_cons_of_ne_nil h
    have hsr := save_reg_vstack s REG_RCX
    rw [hv] at hsr
    obtain ⟨b, bs, hab, hrest, heq⟩ := List.forall₂_cons_left_iff.mp hsr
    have hload : (load (save_reg s REG_RCX) REG_RCX sv0).vstack = b :: bs := by
      rw [vstack_load, heq]
    have e2 : (vtop_set_r (load (save_reg s REG_RCX) REG_RCX sv0) REG_RCX).vstack =
        { b with r := REG_RCX } :: bs := by
      simp [vtop_set_r, hload]
    refine ⟨?_, ?_, ?_, ?_⟩
    · rw [vtop0, e2]
      simp only [List.headD_cons]
      show REG_RCX &&& 255 = REG_RCX
      decide
    · rw [vtop0, vtop0, e2, hv]
      simp only [List.headD_cons]
      exact hab.1
    · simp only [e2, hv, List.tail_cons]
      exact hrest
    · rw [e2, hv]
      simp [hrest.length_eq]

theorem gv_rax_spec (s : Core) (h : s.vstack ≠ []) :
    (vtop0 (gv s RC_RAX).1).r &&& 0x00ff = REG_RAX ∧
    (vtop0 (gv s RC_RAX).1).t = (vtop0 s).t ∧
    List.Forall₂ (spillRel REG_RAX) s.vstack.tail ((gv s RC_RAX).1).vstack.tail ∧
    ((gv s RC_RAX).1).vstack.length = s.vstack.length := by
  have h44 : (RC_RAX &&& RC_RAX : Nat) = 4 := by decide
  have h48 : (RC_RAX &&& RC_RCX : Nat) = 0 := by decide
  have h416 : (RC_RAX &&& RC_RDX : Nat) = 0 := by decide
  by_cases hm : (vtop0 s).r &&& 0x00ff < NB_REGS ∧ (vtop0 s).r &&& 0x00ff = REG_RAX
  · have e : gv s RC_RAX = (s, (vtop0 s).r &&& 0x00ff) := by
      rw [gv, if_neg h]
      simp [h44, h48, h416, hm.1, hm.2]
      intro hc
      exact absurd hc (by decide)
    rw [e]
    exact ⟨hm.2, rfl, spillRel_refl _ _, rfl⟩
  · have e : gv s RC_RAX =
        (vtop_set_r (load (save_reg s REG_RAX) REG_RAX (vtop0 (save_reg s REG_RAX)))
          REG_RAX, REG_RAX) := by
      rw [gv, if_neg h]
      by_cases hlt : (vtop0 s).r &&& 0x00ff < NB_REGS
      · have hne : (vtop0 s).r &&& 0x00ff ≠ REG_RAX := fun hh => hm ⟨hlt, hh⟩
        simp [h44, h48, h416, hlt, hne]
      · simp [h44, h48, h416, hlt]
    rw [e]
    generalize vtop0 (save_reg s REG_RAX) = sv0
    obtain ⟨a, as, hv⟩ := List.exists_cons_of_ne_nil h
    have hsr := save_reg_vstack s REG_RAX
    rw [hv] at hsr
    obtain ⟨b, bs, hab, hrest, heq⟩ := List.forall₂_cons_left_iff.mp hsr
    have hload : (load (save_reg s REG_RAX) REG_RAX sv0).vstack = b :: bs := by
      rw [vstack_load, heq]
    have e2 : (vtop_set_r (load (save_reg s REG_RAX) REG_RAX sv0) REG_RAX).vstack =
        { b with r := REG_RAX } :: bs := by
      simp [vtop_set_r, hload]
    refine ⟨?_, ?_, ?_, ?_⟩
    · rw [vtop0, e2]
      simp only [List.headD_cons]
      show REG_RAX &&& 255 = REG_RAX
      decide
    · rw [vtop0, vtop0, e2, hv]
      simp only [List.headD_cons]
      exact hab.1
    · simp only [e2, hv, List.tail_cons]
      exact hrest
    · rw [e2, hv]
      simp [hrest.length_eq]


theorem vswap_cons (s : Core) (x y : SValue) (l : List SValue)
    (h : s.vstack = x :: y :: l) : (vswap s).vstack = y :: x :: l := by
  rw [vswap, h]

theorem gv2_spec (s : Core) (rc1 rc2 : Nat) (h2 : 2 ≤ s.vstack.length) :
    (vtop0 (gv2 s rc1 rc2)).r &&& 0x00ff = REG_RCX ∧
    (vtop1 (gv2 s rc1 rc2)).r &&& 0x00ff = REG_RAX ∧
    (vtop0 (gv2 s rc1 rc2)).t = (vtop0 s).t ∧
    (vtop1 (gv2 s rc1 rc2)).t = (vtop1 s).t ∧
    (gv2 s rc1 rc2).vstack.length = s.vstack.length := by
  have hne : s.vstack ≠ [] := by
    intro hh; rw [hh] at h2; simp at h2
  obtain ⟨a, l1, hv⟩ := List.exists_cons_of_ne_nil hne
  have hl1 : l1 ≠ [] := by
    intro hh; rw [hv, hh] at h2; simp at h2
  obtain ⟨b, rest, hl⟩ := List.exists_cons_of_ne_nil hl1
  rw [hl] at hv
  obtain ⟨hr1, ht1, htail1, hlen1⟩ := gv_rcx_spec s hne
  have hne1 : (gv s RC_RCX).1.vstack ≠ [] := by
    intro hh; rw [hh, hv] at hlen1; simp at hlen1
  obtain ⟨c, l2, hv1⟩ := List.exists_cons_of_ne_nil hne1
  have hl2 : l2 ≠ [] := by
    intro hh
    rw [hv1, hh, hv] at hlen1
    simp at hlen1
  obtain ⟨d, r1, hl2e⟩ := List.exists_cons_of_ne_nil hl2
  rw [hl2e] at hv1
  have hc : vtop0 (gv s RC_RCX).1 = c := by rw [vtop0, hv1]; rfl
  have ha : vtop0 s = a := by rw [vtop0, hv]; rfl
  rw [hv, hv1] at htail1
  simp only [List.tail_cons] at htail1
  obtain ⟨hbd, hrestr1⟩ := List.forall₂_cons.mp htail1
  have hv2 : (vswap (gv s RC_RCX).1).vstack = d :: c :: r1 :=
    vswap_cons _ c d r1 hv1
  have hne2 : (vswap (gv s RC_RCX).1).vstack ≠ [] := by rw [hv2]; simp
  obtain ⟨hr2, ht2, htail2, hlen2⟩ := gv_rax_spec (vswap (gv s RC_RCX).1) hne2
  have hne3 : (gv (vswap (gv s RC_RCX).1) RC_RAX).1.vstack ≠ [] := by
    intro hh; rw [hh, hv2] at hlen2; simp at hlen2
  obtain ⟨e0, l3, hv3⟩ := List.exists_cons_of_ne_nil hne3
  rw [hv2, hv3] at htail2
  simp only [List.tail_cons] at htail2
  obtain ⟨c2, r2, hcc2, hr1r2, hl3⟩ := List.forall₂_cons_left_iff.mp htail2
  have hcr : c.r &&& 255 = REG_RCX := by rw [← hc]; exact hr1
  have hc2 : c2 = c := by
    apply hcc2.2
    rw [hcr]; decide
  rw [hc2] at hl3
  rw [hl3] at hv3
  have he0 : vtop0 (gv (vswap (gv s RC_RCX).1) RC_RAX).1 = e0 := by
    rw [vtop0, hv3]; rfl
  have hv4 : (gv2 s rc1 rc2).vstack = c :: e0 :: r2 := by
    have e : gv2 s rc1 rc2 = vswap (gv (vswap (gv s RC_RCX).1) RC_RAX).1 := rfl
    rw [e]
    exact vswap_cons _ e0 c r2 hv3
  have hd : vtop0 (vswap (gv s RC_RCX).1) = d := by rw [vtop0, hv2]; rfl
  refine ⟨?_, ?_, ?_, ?_, ?_⟩
  · rw [vtop0, hv4]
    simp only [List.headD_cons]
    exact hcr
  · rw [vtop1, hv4]
    simp only [List.tail_cons, List.headD_cons]
    rw [← he0]; exact hr2
  · rw [vtop0, hv4]
    simp only [List.headD_cons]
    rw [← hc, ht1, ha, ← ha]
  · rw [vtop1, hv4]
    simp only [List.tail_cons, List.headD_cons]
    have : e0.t = d.t := by rw [← he0, ← hd]; exact ht2
    rw [this, hbd.1, vtop1, hv]
    simp only [List.tail_cons, List.headD_cons]
  · rw [hv4, hv]
    simp only [List.length_cons]
    rw [hrestr1.length_eq, hr1r2.length_eq]


theorem setccOf_lt (op t : Nat) : setccOf op t < 256 := by
  unfold setccOf
  repeat' split
  all_goals decide

theorem gen_rex_1001 (X : Core) : gen_rex X 1 0 0 1 = g X 72 := by
  simp only [gen_rex]; norm_num

theorem gen_rex_movzx (X : Core) : gen_rex X 1 REG_RAX 0 REG_RAX = g X 72 := by
  simp only [gen_rex, REG_RAX]; norm_num

theorem gen_modrm_310 (X : Core) : gen_modrm X 3 1 0 = g X 200 := by
  simp only [gen_modrm]

theorem gen_modrm_setcc (X : Core) : gen_modrm X 3 0 REG_RAX = g X 192 := by
  simp only [gen_modrm, REG_RAX]

theorem gen_modrm_movzx (X : Core) : gen_modrm X 3 REG_RAX REG_RAX = g X 192 := by
  simp only [gen_modrm, REG_RAX]

theorem gen_opi_rel_spec (s : Core) (op : Nat) (h2 : 2 ≤ s.vstack.length) :
    (gen_opi_rel s op).text =
      (gv2 s RC_INT RC_INT).text.map
        (fun d => d ++ [72, 57, 200, 15, setccOf op (vtop1 s).t, 192, 72, 15, 182, 192]) ∧
    (vtop0 (gen_opi_rel s op)).r = REG_RAX ∧
    (vtop0 (gen_opi_rel s op)).t = VT_INT ∧
    (gen_opi_rel s op).vstack.length + 1 = s.vstack.length := by
  obtain ⟨h01, h11, h0t, h1t, hlen⟩ := gv2_spec s RC_INT RC_INT h2
  have h11' : (vtop1 (gv2 s RC_INT RC_INT)).r &&& 255 = 0 := h11
  have h01' : (vtop0 (gv2 s RC_INT RC_INT)).r &&& 255 = 1 := h01
  have hne0 : (gv2 s RC_INT RC_INT).vstack ≠ [] := by
    intro hh
    rw [hh] at hlen
    simp at hlen
    omega
  obtain ⟨e0, l0, hv0⟩ := List.exists_cons_of_ne_nil hne0
  have hl0 : l0 ≠ [] := by
    intro hh
    rw [hv0, hh] at hlen
    simp at hlen
    omega
  obtain ⟨e1, r2, hl0e⟩ := List.exists_cons_of_ne_nil hl0
  rw [hl0e] at hv0
  simp only [gen_opi_rel]
  generalize hS : gv2 s RC_INT RC_INT = S0
  rw [hS] at h11' h01' h1t hlen hv0
  rw [h11', h01', gen_rex_1001, gen_modrm_310, gen_modrm_setcc, gen_rex_movzx,
    gen_modrm_movzx]
  have hCv : (g (g (g S0 72) 57) 200).vstack = S0.vstack := by
    simp only [vstack_g]
  have hCne : (g (g (g S0 72) 57) 200).vstack ≠ [] := by
    rw [hCv, hv0]; simp
  have he1 : e1.t = (vtop1 s).t := by
    rw [← h1t, vtop1, hv0]
    simp only [List.tail_cons, List.headD_cons]
  have hDt : (vtop0 (g (vpop (g (g (g S0 72) 57) 200)) 15)).t = (vtop1 s).t := by
    rw [vtop0, vstack_g, vstack_vpop _ hCne, hCv, hv0]
    simp only [List.tail_cons, List.headD_cons]
    exact he1
  rw [hDt]
  have hDv : (vpop (g (g (g S0 72) 57) 200)).vstack = e1 :: r2 := by
    rw [vstack_vpop _ hCne, hCv, hv0]
    rfl
  have hKv : (g (g (g (g (g (g (g (vpop (g (g (g S0 72) 57) 200)) 15)
      (setccOf op (vtop1 s).t)) 192) 72) 15) 182) 192).vstack = e1 :: r2 := by
    simp only [vstack_g]
    exact hDv
  have hFv : (vtop_set_rt (g (g (g (g (g (g (g (vpop (g (g (g S0 72) 57) 200)) 15)
      (setccOf op (vtop1 s).t)) 192) 72) 15) 182) 192) REG_RAX VT_INT).vstack =
      { e1 with r := REG_RAX, t := VT_INT } :: r2 := by
    simp [vtop_set_rt, hKv]
  refine ⟨?_, ?_, ?_, ?_⟩
  · rw [text_vtop_set_rt]
    simp only [text_g, text_vpop, Option.map_map]
    cases htx : S0.text with
    | none => rfl
    | some data =>
      simp [Function.comp, List.append_assoc,
        Nat.mod_eq_of_lt (setccOf_lt op (vtop1 s).t)]
  · rw [vtop0, hFv]
    simp only [List.headD_cons]
  · rw [vtop0, hFv]
    simp only [List.headD_cons]
  · rw [hFv]
    have hs2 : s.vstack.length = r2.length + 2 := by
      rw [← hlen, hv0]; simp
    simp only [List.length_cons]
    omega


/-- **C4.** For each of the six relational operators, `gen_opi` emits — after
the two operands are materialized by `gv2` into RAX and RCX — exactly
`cmp rax, rcx` (48 39 C8), `setcc al` (0F 9x C0) with the second opcode byte
94 for `==`, 95 for `!=`, 9C signed / 92 unsigned for `<`, 9F signed / 97
unsigned for `>`, 9E signed / 96 unsigned for `<=`, 9D signed / 93 unsigned
for `>=` chosen by the signedness of the left operand's type, and
`movzx rax, al` (48 0F B6 C0); afterwards the top value-stack entry resides
in register RAX with type `int`, and the operands were replaced by the one
result. -/
theorem C4_relational_ops (s : Core) (op : Nat) (h2 : 2 ≤ s.vstack.length)
    (hop : op = TOK_EQ ∨ op = TOK_NE ∨ op = 60 ∨ op = 62 ∨ op = TOK_LE ∨ op = TOK_GE) :
    (gen_opi s op).text =
      (gv2 s RC_INT RC_INT).text.map
        (fun d => d ++ [0x48, 0x39, 0xC8, 0x0F,
          (if op = TOK_EQ then 0x94 else if op = TOK_NE then 0x95
           else if op = 60 then (if (vtop1 s).t &&& VT_UNSIGNED ≠ 0 then 0x92 else 0x9C)
           else if op = 62 then (if (vtop1 s).t &&& VT_UNSIGNED ≠ 0 then 0x97 else 0x9F)
           else if op = TOK_LE then (if (vtop1 s).t &&& VT_UNSIGNED ≠ 0 then 0x96 else 0x9E)
           else (if (vtop1 s).t &&& VT_UNSIGNED ≠ 0 then 0x93 else 0x9D)),
          0xC0, 0x48, 0x0F, 0xB6, 0xC0]) ∧
    (vtop0 (gen_opi s op)).r = REG_RAX ∧
    (vtop0 (gen_opi s op)).t = VT_INT ∧
    (gen_opi s op).vstack.length + 1 = s.vstack.length := by
  have hguard : ¬(s.vstack.length < 2 ∧ op ≠ 33 ∧ op ≠ 126) := by
    intro hh
    exact absurd hh.1 (by omega)
  have hdisp : gen_opi s op = gen_opi_rel s op := by
    rw [gen_opi, if_neg hguard]
    rcases hop with h|h|h|h|h|h <;> subst h <;>
      norm_num [TOK_EQ, TOK_NE, TOK_LE, TOK_GE, TOK_SHL, TOK_SHR]
  have hcc : setccOf op (vtop1 s).t =
      (if op = TOK_EQ then 0x94 else if op = TOK_NE then 0x95
       else if op = 60 then (if (vtop1 s).t &&& VT_UNSIGNED ≠ 0 then 0x92 else 0x9C)
       else if op = 62 then (if (vtop1 s).t &&& VT_UNSIGNED ≠ 0 then 0x97 else 0x9F)
       else if op = TOK_LE then (if (vtop1 s).t &&& VT_UNSIGNED ≠ 0 then 0x96 else 0x9E)
       else (if (vtop1 s).t &&& VT_UNSIGNED ≠ 0 then 0x93 else 0x9D)) := by
    rcases hop with h|h|h|h|h|h <;> subst h <;>
      norm_num [setccOf, TOK_EQ, TOK_NE, TOK_LE, TOK_GE]
  rw [hdisp, ← hcc]
  exact gen_opi_rel_spec s op h2

/-- Witness for C4: comparing two stacked constants with `==`. -/
theorem C4_relational_ops_witness :
    2 ≤ coreTwo.vstack.length ∧
    (TOK_EQ = TOK_EQ ∨ TOK_EQ = TOK_NE ∨ TOK_EQ = 60 ∨ TOK_EQ = 62 ∨
      TOK_EQ = TOK_LE ∨ TOK_EQ = TOK_GE) ∧
    ((gen_opi coreTwo TOK_EQ).text =
      (gv2 coreTwo RC_INT RC_INT).text.map
        (fun d => d ++ [0x48, 0x39, 0xC8, 0x0F,
          (if TOK_EQ = TOK_EQ then 0x94 else if TOK_EQ = TOK_NE then 0x95
           else if TOK_EQ = 60 then
             (if (vtop1 coreTwo).t &&& VT_UNSIGNED ≠ 0 then 0x92 else 0x9C)
           else if TOK_EQ = 62 then
             (if (vtop1 coreTwo).t &&& VT_UNSIGNED ≠ 0 then 0x97 else 0x9F)
           else if TOK_EQ = TOK_LE then
             (if (vtop1 coreTwo).t &&& VT_UNSIGNED ≠ 0 then 0x96 else 0x9E)
           else (if (vtop1 coreTwo).t &&& VT_UNSIGNED ≠ 0 then 0x93 else 0x9D)),
          0xC0, 0x48, 0x0F, 0xB6, 0xC0]) ∧
     (vtop0 (gen_opi coreTwo TOK_EQ)).r = REG_RAX ∧
     (vtop0 (gen_opi coreTwo TOK_EQ)).t = VT_INT ∧
     (gen_opi coreTwo TOK_EQ).vstack.length + 1 = coreTwo.vstack.length) :=
  ⟨by decide, Or.inl rfl,
   C4_relational_ops coreTwo TOK_EQ (by decide) (Or.inl rfl)⟩


/-! ## Function-call emission (C1, C2) -/

/-- **C2 (code bug).** The spec requires the direct `call rel32` operand to be
`sym.c − (ind + 4)` (here `0x40 − 5 = 0x3B` with the opcode at offset 0 and
the operand at offset 1), but the emitter writes a zero placeholder that is
never relocated. -/
theorem C2_direct_call_operand_not_relocated :
    (coreC1.symHeap.headD default).c = 0x40 ∧
    (gfunc_call coreC1 0).text = some [0xE8, 0, 0, 0, 0] ∧
    read32 ((gfunc_call coreC1 0).text.getD []) 1 = 0 ∧
    u32ofInt ((coreC1.symHeap.headD default).c - (1 + 4)) = 0x3B ∧
    (0 : Nat) ≠ 0x3B := by
  decide

end TinyCC
